import Mathlib

/-!
Verification of the game physics engine (collision, motion, gravity modules).

The Python source computes with floats; the embedding uses exact rationals ℚ.
Square roots (`math.sqrt`, `np.linalg.norm`) are not rational-valued, so every
function that takes a square root receives an oracle `s : ℚ → ℚ` standing for
the exact real square root; theorems constrain `s` at exactly the points where
the code applies it, and concrete evaluations pick inputs whose square roots
are rational together with an oracle returning them.
-/

/-- 3D vector over ℚ, embedding the `np.ndarray` 3-vectors of the source. -/
structure Vec3 where
  x : ℚ
  y : ℚ
  z : ℚ
deriving DecidableEq, Repr

namespace Vec3

instance : Add Vec3 := ⟨fun a b => ⟨a.x + b.x, a.y + b.y, a.z + b.z⟩⟩

instance : Sub Vec3 := ⟨fun a b => ⟨a.x - b.x, a.y - b.y, a.z - b.z⟩⟩

instance : Neg Vec3 := ⟨fun a => ⟨-a.x, -a.y, -a.z⟩⟩

instance : SMul ℚ Vec3 := ⟨fun c a => ⟨c * a.x, c * a.y, c * a.z⟩⟩

instance : Zero Vec3 := ⟨⟨0, 0, 0⟩⟩

/-- Dot product (`np.dot`). -/
def dot (a b : Vec3) : ℚ := a.x * b.x + a.y * b.y + a.z * b.z

/-- Squared Euclidean norm (`np.sum(v*v)`, or `np.linalg.norm(v)**2`). -/
def normSq (a : Vec3) : ℚ := dot a a

end Vec3

/-- First-match association-list lookup, embedding Python dict indexing
(`d[k]` guarded by `k in d`). -/
def assoc? {α β : Type} [DecidableEq α] : List (α × β) → α → Option β
  | [], _ => none
  | (k, v) :: rest, a => if k = a then some v else assoc? rest a

namespace CollisionDetector

/-- Embeds `CollisionDetector.check_sphere_sphere` (collision.py:11-41).
`s` supplies the square root used to normalize the direction
(`math.sqrt(distance_squared)`). -/
def check_sphere_sphere (s : ℚ → ℚ) (pos1 : Vec3) (radius1 : ℚ)
    (pos2 : Vec3) (radius2 : ℚ) : Bool × Option Vec3 :=
  let direction := pos2 - pos1
  let distance_squared := Vec3.normSq direction
  let min_distance := radius1 + radius2
  if distance_squared < min_distance * min_distance then
    if distance_squared > 0.0001 then
      (true, some ((1 / s distance_squared) • direction))
    else
      (true, some ⟨0, 1, 0⟩)
  else
    (false, none)

/-- Index of the first minimum among six values, embedding
`distances.index(min(distances))` in `check_sphere_box`. -/
def minIndex6 (d0 d1 d2 d3 d4 d5 : ℚ) : ℕ :=
  let m := min d0 (min d1 (min d2 (min d3 (min d4 d5))))
  if d0 = m then 0 else if d1 = m then 1 else if d2 = m then 2
  else if d3 = m then 3 else if d4 = m then 4 else 5

/-- Embeds `CollisionDetector.check_sphere_box` (collision.py:43-99). -/
def check_sphere_box (s : ℚ → ℚ) (sphere_pos : Vec3) (sphere_radius : ℚ)
    (box_pos : Vec3) (box_half_size : Vec3) : Bool × Option Vec3 :=
  let closest_point : Vec3 :=
    ⟨max (box_pos.x - box_half_size.x) (min sphere_pos.x (box_pos.x + box_half_size.x)),
     max (box_pos.y - box_half_size.y) (min sphere_pos.y (box_pos.y + box_half_size.y)),
     max (box_pos.z - box_half_size.z) (min sphere_pos.z (box_pos.z + box_half_size.z))⟩
  let direction := sphere_pos - closest_point
  let distance_squared := Vec3.normSq direction
  if distance_squared < sphere_radius * sphere_radius then
    if distance_squared > 0.0001 then
      (true, some ((1 / s distance_squared) • direction))
    else
      let idx := minIndex6
        |sphere_pos.x - (box_pos.x - box_half_size.x)|
        |sphere_pos.x - (box_pos.x + box_half_size.x)|
        |sphere_pos.y - (box_pos.y - box_half_size.y)|
        |sphere_pos.y - (box_pos.y + box_half_size.y)|
        |sphere_pos.z - (box_pos.z - box_half_size.z)|
        |sphere_pos.z - (box_pos.z + box_half_size.z)|
      let normals : List Vec3 :=
        [⟨-1, 0, 0⟩, ⟨1, 0, 0⟩, ⟨0, -1, 0⟩, ⟨0, 1, 0⟩, ⟨0, 0, -1⟩, ⟨0, 0, 1⟩]
      (true, some (normals.getD idx ⟨0, 0, 1⟩))
  else
    (false, none)

/-- Embeds `CollisionDetector.check_box_box` (collision.py:101-145). -/
def check_box_box (pos1 : Vec3) (half_size1 : Vec3)
    (pos2 : Vec3) (half_size2 : Vec3) : Bool × Option Vec3 :=
  let x_overlap := pos1.x + half_size1.x ≥ pos2.x - half_size2.x ∧
                   pos2.x + half_size2.x ≥ pos1.x - half_size1.x
  let y_overlap := pos1.y + half_size1.y ≥ pos2.y - half_size2.y ∧
                   pos2.y + half_size2.y ≥ pos1.y - half_size1.y
  let z_overlap := pos1.z + half_size1.z ≥ pos2.z - half_size2.z ∧
                   pos2.z + half_size2.z ≥ pos1.z - half_size1.z
  if x_overlap ∧ y_overlap ∧ z_overlap then
    let x_depth := min (pos1.x + half_size1.x - (pos2.x - half_size2.x))
                       (pos2.x + half_size2.x - (pos1.x - half_size1.x))
    let y_depth := min (pos1.y + half_size1.y - (pos2.y - half_size2.y))
                       (pos2.y + half_size2.y - (pos1.y - half_size1.y))
    let z_depth := min (pos1.z + half_size1.z - (pos2.z - half_size2.z))
                       (pos2.z + half_size2.z - (pos1.z - half_size1.z))
    let normal : Vec3 :=
      if x_depth ≤ y_depth ∧ x_depth ≤ z_depth then
        (if pos1.x < pos2.x then ⟨1, 0, 0⟩ else ⟨-1, 0, 0⟩)
      else if y_depth ≤ x_depth ∧ y_depth ≤ z_depth then
        (if pos1.y < pos2.y then ⟨0, 1, 0⟩ else ⟨0, -1, 0⟩)
      else
        (if pos1.z < pos2.z then ⟨0, 0, 1⟩ else ⟨0, 0, -1⟩)
    (true, some normal)
  else
    (false, none)

end CollisionDetector

namespace CollisionResolver

/-- Embeds `CollisionResolver.resolve_sphere_collision` (collision.py:278-325).
`s` supplies `np.linalg.norm(pos1 - pos2)`.  The radii are accepted and unused,
as in the source. -/
def resolve_sphere_collision (s : ℚ → ℚ) (pos1 velocity1 : Vec3)
    (mass1 radius1 : ℚ) (pos2 velocity2 : Vec3) (mass2 radius2 : ℚ)
    (restitution : ℚ) : Vec3 × Vec3 :=
  let normal0 := pos1 - pos2
  let distance := s (Vec3.normSq normal0)
  if distance < 0.0001 then (velocity1, velocity2)
  else
    let normal := (1 / distance) • normal0
    let rel_velocity := velocity1 - velocity2
    let vel_along_normal := Vec3.dot rel_velocity normal
    if vel_along_normal > 0 then (velocity1, velocity2)
    else
      let j := -(1 + restitution) * vel_along_normal / (1 / mass1 + 1 / mass2)
      (velocity1 + (j / mass1) • normal, velocity2 - (j / mass2) • normal)

/-- Embeds `CollisionResolver.resolve_penetration` (collision.py:327-366).
Note the source's quirk: in the coincident-center fallback the reassigned
`distance = 1.0` feeds into the penetration depth. -/
def resolve_penetration (s : ℚ → ℚ) (pos1 : Vec3) (radius1 : ℚ)
    (pos2 : Vec3) (radius2 : ℚ) : Vec3 × Vec3 :=
  let direction0 := pos1 - pos2
  let distance0 := s (Vec3.normSq direction0)
  let dd : Vec3 × ℚ :=
    if distance0 < 0.0001 then (⟨1, 0, 0⟩, 1)
    else ((1 / distance0) • direction0, distance0)
  let penetration := radius1 + radius2 - dd.2
  if penetration ≤ 0 then (pos1, pos2)
  else
    let displacement := (penetration / 2) • dd.1
    (pos1 + displacement, pos2 - displacement)

end CollisionResolver

namespace CollisionManager

/-- The manager's `collision_layers` dict: layer name to the ids it holds,
as an ordered association list. -/
abbrev Layers := List (String × List ℕ)

/-- The `collision_matrix` argument: layer name to the list of layer names it
collides with. -/
abbrev Matrix := List (String × List String)

/-- The loop in `should_check_collision` gathering the layers an object
belongs to (collision.py:416-424). -/
def layersOf (collision_layers : Layers) (obj_id : ℕ) : List String :=
  (collision_layers.filter (fun p => obj_id ∈ p.2)).map Prod.fst

/-- Embeds `CollisionManager.should_check_collision` (collision.py:404-433). -/
def should_check_collision (collision_layers : Layers) (obj1_id obj2_id : ℕ)
    (collision_matrix : Matrix) : Bool :=
  let obj1_layers := layersOf collision_layers obj1_id
  let obj2_layers := layersOf collision_layers obj2_id
  obj1_layers.any fun layer1 =>
    match assoc? collision_matrix layer1 with
    | some cols => obj2_layers.any fun layer2 => decide (layer2 ∈ cols)
    | none => false

end CollisionManager

/-- Shape tag of a game object (`obj['shape']`). -/
inductive Shape where
  | sphere
  | box
deriving DecidableEq, Repr

/-- A game object record: the per-object dict used by `process_collisions`.
The source dicts carry `radius` only for spheres and `half_size` only for
boxes; here both fields are always present and the code never reads the
irrelevant one, exactly as in the source. -/
structure CBody where
  shape : Shape
  position : Vec3
  velocity : Vec3
  mass : ℚ
  radius : ℚ
  half_size : Vec3
deriving DecidableEq, Repr

/-- Python object reference.  `game_objects` maps ids to references to body
records living on a heap; `dict.copy()` copies only the id → reference table,
so the input mapping and the copy share the body records.  The embedding makes
that sharing explicit. -/
abbrev Ref := ℕ

/-- The heap of body records, addressed by reference. -/
abbrev Heap := List (Ref × CBody)

/-- The id → reference table of a `game_objects` dict. -/
abbrev PyDict := List (ℕ × Ref)

/-- Dereference a heap cell. -/
def heapGet (h : Heap) (r : Ref) : Option CBody := assoc? h r

/-- Overwrite a heap cell in place (no cell is added or removed). -/
def heapSet : Heap → Ref → CBody → Heap
  | [], _, _ => []
  | (r', b') :: rest, r, b =>
    if r' = r then (r, b) :: rest else (r', b') :: heapSet rest r b

/-- The body a dict shows for an id: dereference the id's record. -/
def viewBody (d : PyDict) (h : Heap) (obj_id : ℕ) : Option CBody :=
  (assoc? d obj_id).bind (heapGet h)

/-- `dict[obj_id]['velocity'] = v`: overwrite one field of the record the id
refers to. -/
def writeVel (d : PyDict) (h : Heap) (obj_id : ℕ) (v : Vec3) : Heap :=
  match assoc? d obj_id with
  | some r =>
    match heapGet h r with
    | some b => heapSet h r { b with velocity := v }
    | none => h
  | none => h

/-- `dict[obj_id]['position'] = p`: overwrite one field of the record the id
refers to. -/
def writePos (d : PyDict) (h : Heap) (obj_id : ℕ) (p : Vec3) : Heap :=
  match assoc? d obj_id with
  | some r =>
    match heapGet h r with
    | some b => heapSet h r { b with position := p }
    | none => h
  | none => h

/-- The index-ordered pairs `(object_ids[i], object_ids[j])`, `i < j`, of the
nested loops in `process_collisions` (collision.py:459-462). -/
def orderedPairs : List ℕ → List (ℕ × ℕ)
  | [] => []
  | x :: xs => xs.map (fun y => (x, y)) ++ orderedPairs xs

namespace CollisionManager

/-- The shape dispatch of `process_collisions` (collision.py:474-496),
producing the detection outcome for a pair of bodies. -/
def detect_pair (s : ℚ → ℚ) (obj1 obj2 : CBody) : Bool × Option Vec3 :=
  match obj1.shape, obj2.shape with
  | .sphere, .sphere =>
    CollisionDetector.check_sphere_sphere s obj1.position obj1.radius
      obj2.position obj2.radius
  | .box, .box =>
    CollisionDetector.check_box_box obj1.position obj1.half_size
      obj2.position obj2.half_size
  | .sphere, .box =>
    -- collision.py:490-491: the normal from the sphere-box test is negated in
    -- the sphere-first branch ("Reverse normal for correct resolution").
    match CollisionDetector.check_sphere_box s obj1.position obj1.radius
        obj2.position obj2.half_size with
    | (true, some n) => (true, some (-n))
    | r => r
  | .box, .sphere =>
    CollisionDetector.check_sphere_box s obj2.position obj2.radius
      obj1.position obj1.half_size

/-- One iteration of the pair loop of `process_collisions`
(collision.py:461-544).  `hr` is the heap the pair's reads
(`obj1 = game_objects[obj1_id]`, detection, resolution inputs) go through and
`hw` the heap its writes (`updated_objects[...][...] = ...`) go to.  In the
source both are the same heap — `game_objects.copy()` is shallow, so reads and
writes reach the same records — and `process_collisions` below instantiates
`hr := hw`. -/
def process_pair (s : ℚ → ℚ) (collision_layers : Layers)
    (collision_matrix : Matrix) (restitution : ℚ) (d : PyDict)
    (hr : Heap) (hw : Heap) (ids : ℕ × ℕ) : Heap :=
  let obj1_id := ids.1
  let obj2_id := ids.2
  if should_check_collision collision_layers obj1_id obj2_id collision_matrix then
    match viewBody d hr obj1_id, viewBody d hr obj2_id with
    | some obj1, some obj2 =>
      let det := detect_pair s obj1 obj2
      -- `if collision_detected and collision_normal is not None:`
      if det.1 then
        match det.2 with
        | some collision_normal =>
          if obj1.shape = .sphere ∧ obj2.shape = .sphere then
            let nv := CollisionResolver.resolve_sphere_collision s
              obj1.position obj1.velocity obj1.mass obj1.radius
              obj2.position obj2.velocity obj2.mass obj2.radius restitution
            let h1 := writeVel d hw obj1_id nv.1
            let h2 := writeVel d h1 obj2_id nv.2
            let np := CollisionResolver.resolve_penetration s
              obj1.position obj1.radius obj2.position obj2.radius
            let h3 := writePos d h2 obj1_id np.1
            writePos d h3 obj2_id np.2
          else
            let rel_velocity := obj1.velocity - obj2.velocity
            let vel_along_normal := Vec3.dot rel_velocity collision_normal
            if vel_along_normal > 0 then hw
            else
              let j := -(1 + restitution) * vel_along_normal /
                (1 / obj1.mass + 1 / obj2.mass)
              let impulse := j • collision_normal
              let h1 := writeVel d hw obj1_id
                (obj1.velocity + (1 / obj1.mass) • impulse)
              let h2 := writeVel d h1 obj2_id
                (obj2.velocity - (1 / obj2.mass) • impulse)
              let penetration : ℚ := 0.1
              let correction := ((penetration * 0.8) /
                (1 / obj1.mass + 1 / obj2.mass)) • collision_normal
              let h3 := writePos d h2 obj1_id
                (obj1.position + (1 / obj1.mass) • correction)
              writePos d h3 obj2_id
                (obj2.position - (1 / obj2.mass) • correction)
        | none => hw
      else hw
    | _, _ => hw
  else
    hw

/-- Embeds `CollisionManager.process_collisions` (collision.py:435-546).
`updated_objects = game_objects.copy()` duplicates only the id → reference
table, so each pair iteration both reads and writes the current shared heap:
`process_pair` is run with read-heap equal to write-heap, threaded through the
pair loop.  The returned table is the copy — entry-for-entry the caller's
table. -/
def process_collisions (s : ℚ → ℚ) (collision_layers : Layers) (d : PyDict)
    (h : Heap) (collision_matrix : Matrix) (restitution : ℚ) : PyDict × Heap :=
  let updated_objects := d
  let object_ids := d.map Prod.fst
  (updated_objects,
   (orderedPairs object_ids).foldl
     (fun hh ids =>
       process_pair s collision_layers collision_matrix restitution d hh hh ids)
     h)

/-- Modelled from the spec: `process_collisions` as §4.3 of the spec words it
— "Bodies are updated in a copy of the snapshot so that resolution order
within one pass does not let an earlier pair's correction feed into a later
pair's detection in the same pass".  Every pair reads the unmodified input
snapshot `h` while writes accumulate in a separate working copy, and the
caller's snapshot is untouched. -/
def process_collisions_spec (s : ℚ → ℚ) (collision_layers : Layers)
    (d : PyDict) (h : Heap) (collision_matrix : Matrix) (restitution : ℚ) :
    PyDict × Heap :=
  let object_ids := d.map Prod.fst
  (d,
   (orderedPairs object_ids).foldl
     (fun hw ids =>
       process_pair s collision_layers collision_matrix restitution d h hw ids)
     h)

end CollisionManager

/-- `np.cross` for 3-vectors (used to compute the character right vector). -/
def Vec3.cross (a b : Vec3) : Vec3 :=
  ⟨a.y * b.z - a.z * b.y, a.z * b.x - a.x * b.z, a.x * b.y - a.y * b.x⟩

/-- A body record for the motion module (motion.py).  Fields the code reads
with `obj.get(key, default)` or guards with `'key' in obj` are optional
(`none` embeds an absent key). -/
structure MBody where
  position : Vec3
  velocity : Vec3
  is_grounded : Option Bool := none
  has_physics : Option Bool := none
  has_controller : Option Bool := none
  input_direction : Option Vec3 := none
  is_sprinting : Option Bool := none
  is_crouching : Option Bool := none
  forward_vector : Option Vec3 := none
  mass : Option ℚ := none
deriving DecidableEq, Repr

/-- The `Motion` class's constants (motion.py:11-15), defaulted as in
`__init__`. -/
structure Motion where
  gravity : Vec3 := ⟨0, -9.81, 0⟩
  air_resistance : ℚ := 0.01
  ground_friction : ℚ := 0.1
deriving DecidableEq, Repr

namespace Motion

/-- Embeds `Motion.apply_force` (motion.py:37-57). -/
def apply_force (mass : ℚ) (current_velocity : Vec3) (force : Vec3)
    (delta_time : ℚ) : Vec3 :=
  let acceleration := (1 / mass) • force
  current_velocity + delta_time • acceleration

/-- Embeds `Motion.apply_impulse` (motion.py:59-79). -/
def apply_impulse (mass : ℚ) (current_velocity : Vec3) (impulse : Vec3) : Vec3 :=
  let velocity_change := (1 / mass) • impulse
  current_velocity + velocity_change

/-- Embeds `Motion.apply_gravity` (motion.py:81-98). -/
def apply_gravity (m : Motion) (velocity : Vec3) (is_grounded : Bool)
    (delta_time : ℚ) : Vec3 :=
  if ¬ is_grounded then velocity + delta_time • m.gravity else velocity

/-- Embeds `Motion.apply_air_resistance` (motion.py:100-129).  `s` supplies
`np.linalg.norm`. -/
def apply_air_resistance (s : ℚ → ℚ) (m : Motion) (velocity : Vec3)
    (delta_time : ℚ) : Vec3 :=
  let speed := s (Vec3.normSq velocity)
  if speed > 0.001 then
    let deceleration := (-m.air_resistance) • velocity
    let new_velocity := velocity + delta_time • deceleration
    let new_speed := s (Vec3.normSq new_velocity)
    if new_speed < 0.001 ∨ Vec3.dot new_velocity velocity < 0 then ⟨0, 0, 0⟩
    else new_velocity
  else ⟨0, 0, 0⟩

/-- Embeds `Motion.apply_ground_friction` (motion.py:131-171). -/
def apply_ground_friction (s : ℚ → ℚ) (m : Motion) (velocity : Vec3)
    (is_grounded : Bool) (delta_time : ℚ) : Vec3 :=
  if ¬ is_grounded then velocity
  else
    let horizontal_velocity : Vec3 := ⟨velocity.x, 0, velocity.z⟩
    let speed := s (Vec3.normSq horizontal_velocity)
    if speed > 0.001 then
      let friction_direction := (-(1 / speed)) • horizontal_velocity
      let deceleration := (m.ground_friction * 9.81) • friction_direction
      let new_horizontal0 := horizontal_velocity + delta_time • deceleration
      let new_speed := s (Vec3.normSq new_horizontal0)
      let new_horizontal :=
        if new_speed < 0.001 ∨ Vec3.dot new_horizontal0 horizontal_velocity < 0
        then (⟨0, 0, 0⟩ : Vec3)
        else new_horizontal0
      ⟨new_horizontal.x, velocity.y, new_horizontal.z⟩
    else ⟨0, velocity.y, 0⟩

/-- Embeds `Motion.update_position` (motion.py:173-187). -/
def update_position (position velocity : Vec3) (delta_time : ℚ) : Vec3 :=
  position + delta_time • velocity

/-- Embeds `Motion.process_object_motion` (motion.py:189-230): gravity, air
resistance, ground friction, then position integration, on a copy of the
object. -/
def process_object_motion (s : ℚ → ℚ) (m : Motion) (obj : MBody)
    (delta_time : ℚ) : MBody :=
  let v1 := apply_gravity m obj.velocity (obj.is_grounded.getD false) delta_time
  let v2 := apply_air_resistance s m v1 delta_time
  let v3 := apply_ground_friction s m v2 (obj.is_grounded.getD false) delta_time
  { obj with velocity := v3,
             position := update_position obj.position v3 delta_time }

end Motion

/-- The `OmniMovement` class's tuning parameters (motion.py:248-256),
defaulted as in `__init__`. -/
structure OmniMovement where
  max_speed : ℚ := 5
  acceleration : ℚ := 20
  deceleration : ℚ := 25
  air_control : ℚ := 0.3
  strafe_speed_multiplier : ℚ := 0.8
  backward_speed_multiplier : ℚ := 0.7
  sprint_multiplier : ℚ := 1.5
  crouch_multiplier : ℚ := 0.5
deriving DecidableEq, Repr

namespace OmniMovement

/-- Embeds `OmniMovement.calculate_move_direction` (motion.py:292-317). -/
def calculate_move_direction (s : ℚ → ℚ)
    (forward_vec right_vec input_direction : Vec3) : Vec3 :=
  let forward_component := input_direction.z • forward_vec
  let right_component := input_direction.x • right_vec
  let move_direction := forward_component + right_component
  let magnitude := s (Vec3.normSq move_direction)
  if magnitude > 0.001 then (1 / magnitude) • move_direction
  else move_direction

/-- Embeds `OmniMovement.apply_movement_input` (motion.py:319-436). -/
def apply_movement_input (s : ℚ → ℚ) (om : OmniMovement) (obj : MBody)
    (input_direction : Vec3) (delta_time : ℚ)
    (is_sprinting : Bool) (is_crouching : Bool) : MBody :=
  let forward_vec := obj.forward_vector.getD ⟨0, 0, 1⟩
  let right_vec0 := Vec3.cross ⟨0, 1, 0⟩ forward_vec
  let right_vec := (1 / max (s (Vec3.normSq right_vec0)) 0.001) • right_vec0
  if s (Vec3.normSq input_direction) > 0.001 then
    let move_direction :=
      calculate_move_direction s forward_vec right_vec input_direction
    let forward_alignment := Vec3.dot move_direction forward_vec
    let direction_multiplier0 : ℚ :=
      if forward_alignment < -0.3 then om.backward_speed_multiplier
      else if |forward_alignment| < 0.7 then om.strafe_speed_multiplier
      else 1
    let direction_multiplier :=
      if is_sprinting then direction_multiplier0 * om.sprint_multiplier
      else if is_crouching then direction_multiplier0 * om.crouch_multiplier
      else direction_multiplier0
    let current_max_speed := om.max_speed * direction_multiplier
    let desired_velocity := current_max_speed • move_direction
    let acceleration_modifier : ℚ :=
      if obj.is_grounded.getD true then 1 else om.air_control
    let current_velocity_horizontal : Vec3 := ⟨obj.velocity.x, 0, obj.velocity.z⟩
    let desired_velocity_horizontal : Vec3 :=
      ⟨desired_velocity.x, 0, desired_velocity.z⟩
    let acceleration_vector0 :=
      (1 / delta_time) • (desired_velocity_horizontal - current_velocity_horizontal)
    let accel_magnitude := s (Vec3.normSq acceleration_vector0)
    let acceleration_vector :=
      if accel_magnitude > om.acceleration * acceleration_modifier then
        ((om.acceleration * acceleration_modifier) / accel_magnitude) •
          acceleration_vector0
      else acceleration_vector0
    let force := (obj.mass.getD 1) • acceleration_vector
    let new_velocity0 :=
      Motion.apply_force (obj.mass.getD 1) obj.velocity force delta_time
    { obj with velocity := ⟨new_velocity0.x, obj.velocity.y, new_velocity0.z⟩ }
  else
    let current_velocity_horizontal : Vec3 := ⟨obj.velocity.x, 0, obj.velocity.z⟩
    let speed := s (Vec3.normSq current_velocity_horizontal)
    if speed > 0.001 then
      let deceleration_direction := (-(1 / speed)) • current_velocity_horizontal
      let deceleration : ℚ :=
        if obj.is_grounded.getD true then om.deceleration
        else om.deceleration * om.air_control
      let force := (deceleration * obj.mass.getD 1) • deceleration_direction
      let new_velocity0 :=
        Motion.apply_force (obj.mass.getD 1) obj.velocity force delta_time
      { obj with velocity := ⟨new_velocity0.x, obj.velocity.y, new_velocity0.z⟩ }
    else obj

/-- Embeds `OmniMovement.process_jump` (motion.py:438-467). -/
def process_jump (obj : MBody) (jump_force : ℚ) : MBody :=
  if obj.is_grounded.getD false then
    { obj with
      velocity := Motion.apply_impulse (obj.mass.getD 1) obj.velocity
        ⟨0, jump_force, 0⟩,
      is_grounded := some false }
  else obj

/-- Embeds `OmniMovement.process_dash` (motion.py:469-500).  `s` supplies
`np.linalg.norm(dash_direction)`. -/
def process_dash (s : ℚ → ℚ) (obj : MBody) (dash_direction : Vec3)
    (dash_force : ℚ) : MBody :=
  let magnitude := s (Vec3.normSq dash_direction)
  if magnitude > 0.001 then
    let normalized_direction := (1 / magnitude) • dash_direction
    let dash_impulse := dash_force • normalized_direction
    { obj with
      velocity := Motion.apply_impulse (obj.mass.getD 1) obj.velocity
        dash_impulse }
  else obj

end OmniMovement

namespace MotionPhysicsSystem

/-- The per-object body of the loop in `MotionPhysicsSystem.update`
(motion.py:528-550): skip when `has_physics` is present and false (the
`obj.get('has_physics', True)` default is True), otherwise integrate and, for
controller-driven bodies carrying an `input_direction`, run the
omni-movement controller with the default-constructed `Motion` and
`OmniMovement` parameters of `__init__`. -/
def update_step (s : ℚ → ℚ) (delta_time : ℚ) (obj : MBody) : MBody :=
  if ¬ (obj.has_physics.getD true) then obj
  else
    let updated_obj := Motion.process_object_motion s {} obj delta_time
    if obj.has_controller.getD false ∧ obj.input_direction.isSome then
      OmniMovement.apply_movement_input s {} updated_obj
        (obj.input_direction.getD ⟨0, 0, 0⟩) delta_time
        (obj.is_sprinting.getD false) (obj.is_crouching.getD false)
    else updated_obj

/-- Embeds `MotionPhysicsSystem.update` (motion.py:514-552): a fresh dict is
built with each object replaced by its processed copy. -/
def update (s : ℚ → ℚ) (game_objects : List (ℕ × MBody)) (delta_time : ℚ) :
    List (ℕ × MBody) :=
  game_objects.map (fun p => (p.1, update_step s delta_time p.2))

end MotionPhysicsSystem

/-- The state of a `GravitySystem` (gravity.py:4-22): the gravity constant
and the (already normalized) gravity direction. -/
structure GravitySystem where
  gravity_constant : ℚ
  gravity_direction : Vec3
deriving DecidableEq, Repr

/-- A `GravityZone` (gravity.py:131-153), defaulted as in `__init__`. -/
structure GravityZone where
  position : Vec3
  radius : ℚ
  gravity_modifier : ℚ := 1
  gravity_direction : Option Vec3 := none
  is_enabled : Bool := true
deriving DecidableEq, Repr

namespace GravityZone

/-- Embeds `GravityZone.is_in_zone` (gravity.py:155-166). -/
def is_in_zone (s : ℚ → ℚ) (z : GravityZone) (object_position : Vec3) : Bool :=
  decide (s (Vec3.normSq (object_position - z.position)) ≤ z.radius)

/-- Embeds `GravityZone.get_influence_factor` (gravity.py:168-184). -/
def get_influence_factor (s : ℚ → ℚ) (z : GravityZone)
    (object_position : Vec3) : ℚ :=
  if ¬ is_in_zone s z object_position then 0
  else 1 - s (Vec3.normSq (object_position - z.position)) / z.radius

/-- Embeds `GravityZone.modify_gravity` (gravity.py:186-218).  The float code
divides by `np.linalg.norm` with no zero-norm guard; dividing a zero vector by
its zero norm yields NaN components in numpy, modeled here as `none`
(a non-NaN result `(constant, direction)` is `some`). -/
def modify_gravity (s : ℚ → ℚ) (z : GravityZone) (gravity_system : GravitySystem)
    (object_position : Vec3) (influence_threshold : ℚ) : Option (ℚ × Vec3) :=
  if ¬ z.is_enabled then
    some (gravity_system.gravity_constant, gravity_system.gravity_direction)
  else
    let influence := get_influence_factor s z object_position
    if influence ≤ influence_threshold then
      some (gravity_system.gravity_constant, gravity_system.gravity_direction)
    else
      let modified_constant := gravity_system.gravity_constant * z.gravity_modifier
      match z.gravity_direction with
      | some zd =>
        if Vec3.normSq zd = 0 then none
        else
          let normalized_direction := (1 / s (Vec3.normSq zd)) • zd
          let blended_direction :=
            (1 - influence) • gravity_system.gravity_direction +
              influence • normalized_direction
          if Vec3.normSq blended_direction = 0 then none
          else
            some (modified_constant,
              (1 / s (Vec3.normSq blended_direction)) • blended_direction)
      | none => some (modified_constant, gravity_system.gravity_direction)

end GravityZone

namespace CollisionDetector

/-- A candidate object for `ray_cast` (an entry of its `objects` list, tagged
`'sphere'` or `'box'` with its parameters). -/
inductive RayObj where
  | sphere (position : Vec3) (radius : ℚ)
  | box (position : Vec3) (half_size : Vec3)
deriving DecidableEq, Repr

/-- The hit-information dict `ray_cast` returns (`object`, `distance`,
`point`, `normal`). -/
structure RayHit where
  object : RayObj
  distance : ℚ
  point : Vec3
  normal : Vec3
deriving DecidableEq, Repr

/-- State of the slab loop in the ray-box branch: `t_min` (`none` = −∞),
`t_max` (`none` = +∞), and the axis/sign of the entering face
(collision.py:216-219). -/
structure SlabState where
  t_min : Option ℚ
  t_max : Option ℚ
  axis : ℕ
  sign : ℚ
deriving DecidableEq, Repr

/-- One iteration (axis `i`) of the slab loop (collision.py:222-250); a `none`
result is the `break` (the ray misses the box). -/
def slab_axis (i : ℕ) (o d minb maxb : ℚ) (st : SlabState) : Option SlabState :=
  if |d| < 0.000001 then
    if o < minb ∨ o > maxb then none else some st
  else
    let t1 := (minb - o) / d
    let t2 := (maxb - o) / d
    let tts : ℚ × ℚ × ℚ := if t1 > t2 then (t2, t1, -1) else (t1, t2, 1)
    let upd : Bool :=
      match st.t_min with
      | none => true
      | some m => decide (tts.1 > m)
    let st1 : SlabState :=
      if upd then { st with t_min := some tts.1, axis := i, sign := -tts.2.2 }
      else st
    let st2 : SlabState :=
      { st1 with t_max := some (match st1.t_max with
          | none => tts.2.1
          | some m => min m tts.2.1) }
    match st2.t_min, st2.t_max with
    | some a, some b => if a > b then none else some st2
    | _, _ => some st2

/-- The ray-box part of the loop body (collision.py:206-258): run the slab
method over the three axes; on a hit return
(`hit_distance`, entering axis, sign).  A `t_max` of +∞ (all axes parallel,
origin inside the box) can never pass the later `hit_distance <
closest_distance` test against a finite float, and is returned as `none`. -/
def ray_box_hit (ray_origin ray_direction box_pos box_half_size : Vec3) :
    Option (ℚ × ℕ × ℚ) :=
  let min_bounds := box_pos - box_half_size
  let max_bounds := box_pos + box_half_size
  let st0 : SlabState := ⟨none, none, 0, 1⟩
  match slab_axis 0 ray_origin.x ray_direction.x min_bounds.x max_bounds.x st0 with
  | none => none
  | some st1 =>
    match slab_axis 1 ray_origin.y ray_direction.y min_bounds.y max_bounds.y st1 with
    | none => none
    | some st2 =>
      match slab_axis 2 ray_origin.z ray_direction.z min_bounds.z max_bounds.z st2 with
      | none => none
      | some st =>
        match st.t_min with
        | some t =>
          if t > 0 then some (t, st.axis, st.sign)
          else
            match st.t_max with
            | some tm => some (tm, st.axis, st.sign)
            | none => none
        | none =>
          match st.t_max with
          | some tm => some (tm, st.axis, st.sign)
          | none => none

/-- The axis-aligned unit normal the box branch builds
(collision.py:257-258). -/
def axis_normal (axis : ℕ) (sign : ℚ) : Vec3 :=
  if axis = 0 then ⟨sign, 0, 0⟩
  else if axis = 1 then ⟨0, sign, 0⟩
  else ⟨0, 0, sign⟩

/-- One iteration of the object loop of `ray_cast` (collision.py:169-268),
threading the running `(closest_hit, closest_distance)` state.  `s` supplies
`math.sqrt` for the half chord. -/
def ray_cast_step (s : ℚ → ℚ) (ray_origin ray_direction : Vec3)
    (state : Option RayHit × ℚ) (obj : RayObj) : Option RayHit × ℚ :=
  let closest_distance := state.2
  match obj with
  | .sphere sphere_pos sphere_radius =>
    let offset := sphere_pos - ray_origin
    let projected_distance := Vec3.dot offset ray_direction
    if projected_distance < 0 then state
    else
      let closest_point := ray_origin + projected_distance • ray_direction
      let closest_point_dist_squared := Vec3.normSq (closest_point - sphere_pos)
      if closest_point_dist_squared > sphere_radius * sphere_radius then state
      else
        let half_chord :=
          s (sphere_radius * sphere_radius - closest_point_dist_squared)
        let hit_distance := projected_distance - half_chord
        if hit_distance < closest_distance then
          let hit_point := ray_origin + hit_distance • ray_direction
          let hit_normal := (1 / sphere_radius) • (hit_point - sphere_pos)
          (some ⟨obj, hit_distance, hit_point, hit_normal⟩, hit_distance)
        else state
  | .box box_pos box_half_size =>
    Option.elim (ray_box_hit ray_origin ray_direction box_pos box_half_size)
      state (fun tas =>
        if 0 < tas.1 ∧ tas.1 < closest_distance then
          let hit_point := ray_origin + tas.1 • ray_direction
          (some ⟨obj, tas.1, hit_point, axis_normal tas.2.1 tas.2.2⟩, tas.1)
        else state)

/-- Embeds `CollisionDetector.ray_cast` (collision.py:147-270): fold the loop
body over the candidate list starting from `(None, max_distance)`; the
returned flag is `closest_hit is not None`. -/
def ray_cast (s : ℚ → ℚ) (ray_origin ray_direction : Vec3) (max_distance : ℚ)
    (objects : List RayObj) : Bool × Option RayHit :=
  let r := objects.foldl (ray_cast_step s ray_origin ray_direction)
    (none, max_distance)
  (r.1.isSome, r.1)

/-- The state-independent candidate entry distance of one object: the
distance `ray_cast`'s loop body computes for it before comparing against the
running closest distance (spheres additionally require a nonnegative
projection; boxes a strictly positive distance). -/
def cand_dist (s : ℚ → ℚ) (ray_origin ray_direction : Vec3) (obj : RayObj) :
    Option ℚ :=
  match obj with
  | .sphere sphere_pos sphere_radius =>
    let offset := sphere_pos - ray_origin
    let projected_distance := Vec3.dot offset ray_direction
    if projected_distance < 0 then none
    else
      let closest_point := ray_origin + projected_distance • ray_direction
      let closest_point_dist_squared := Vec3.normSq (closest_point - sphere_pos)
      if closest_point_dist_squared > sphere_radius * sphere_radius then none
      else some (projected_distance -
        s (sphere_radius * sphere_radius - closest_point_dist_squared))
  | .box box_pos box_half_size =>
    Option.elim (ray_box_hit ray_origin ray_direction box_pos box_half_size)
      none (fun tas => if 0 < tas.1 then some tas.1 else none)

/-- The hit record `ray_cast` builds for object `obj` accepted at distance
`t`. -/
def mk_hit (s : ℚ → ℚ) (ray_origin ray_direction : Vec3) (obj : RayObj)
    (t : ℚ) : RayHit :=
  match obj with
  | .sphere sphere_pos sphere_radius =>
    ⟨obj, t, ray_origin + t • ray_direction,
      (1 / sphere_radius) • ((ray_origin + t • ray_direction) - sphere_pos)⟩
  | .box box_pos box_half_size =>
    ⟨obj, t, ray_origin + t • ray_direction,
      Option.elim (ray_box_hit ray_origin ray_direction box_pos box_half_size)
        ⟨0, 0, 0⟩ (fun tas => axis_normal tas.2.1 tas.2.2)⟩

/-- The winner of the strict running-minimum scan that `ray_cast` performs:
starting from threshold `c`, the first object attaining the least candidate
distance strictly below `c` (later objects must be strictly closer to
displace an earlier winner). -/
def best_from (s : ℚ → ℚ) (ray_origin ray_direction : Vec3) :
    ℚ → List RayObj → Option (RayObj × ℚ)
  | _, [] => none
  | c, obj :: rest =>
    match cand_dist s ray_origin ray_direction obj with
    | some t =>
      if t < c then
        match best_from s ray_origin ray_direction t rest with
        | some r => some r
        | none => some (obj, t)
      else best_from s ray_origin ray_direction c rest
    | none => best_from s ray_origin ray_direction c rest

end CollisionDetector

namespace Vec3

theorem add_def (a b : Vec3) : a + b = ⟨a.x + b.x, a.y + b.y, a.z + b.z⟩ := rfl

theorem sub_def (a b : Vec3) : a - b = ⟨a.x - b.x, a.y - b.y, a.z - b.z⟩ := rfl

theorem smul_def (c : ℚ) (a : Vec3) : c • a = ⟨c * a.x, c * a.y, c * a.z⟩ := rfl

theorem neg_def (a : Vec3) : -a = ⟨-a.x, -a.y, -a.z⟩ := rfl

end Vec3

theorem Shape.box_ne_sphere : Shape.box ≠ Shape.sphere := fun h => Shape.noConfusion h

theorem Shape.sphere_ne_box : Shape.sphere ≠ Shape.box := fun h => Shape.noConfusion h

namespace Vec3

end Vec3

theorem Vec3.normSq_smul (c : ℚ) (v : Vec3) :
    Vec3.normSq (c • v) = c ^ 2 * Vec3.normSq v := by
  simp only [Vec3.normSq, Vec3.dot, Vec3.smul_def]
  ring

theorem Vec3.dot_add_left (a b c : Vec3) :
    Vec3.dot (a + b) c = Vec3.dot a c + Vec3.dot b c := by
  simp only [Vec3.dot, Vec3.add_def]
  ring

theorem Vec3.dot_sub_left (a b c : Vec3) :
    Vec3.dot (a - b) c = Vec3.dot a c - Vec3.dot b c := by
  simp only [Vec3.dot, Vec3.sub_def]
  ring

theorem Vec3.dot_smul_left (r : ℚ) (a b : Vec3) :
    Vec3.dot (r • a) b = r * Vec3.dot a b := by
  simp only [Vec3.dot, Vec3.smul_def]
  ring

theorem momentum_helper (v1 v2 n : Vec3) (j m1 m2 : ℚ)
    (h1 : m1 ≠ 0) (h2 : m2 ≠ 0) :
    m1 • (v1 + (j / m1) • n) + m2 • (v2 - (j / m2) • n) = m1 • v1 + m2 • v2 := by
  simp only [Vec3.add_def, Vec3.sub_def, Vec3.smul_def, Vec3.mk.injEq]
  refine ⟨?_, ?_, ?_⟩ <;> field_simp <;> ring

/-- C2, counterexample: for spheres A at the origin (radius 1) and B at (3,4,0)
(radius 5) the detector reports a hit with normal (3/5, 4/5, 0), whose dot
product with posA − posB is negative: the normal points from the first sphere A
toward the second sphere B, not from B toward A as the claim states. -/
theorem C2_counterexample :
    CollisionDetector.check_sphere_sphere (fun q => if q = 25 then 5 else 0)
        ⟨0, 0, 0⟩ 1 ⟨3, 4, 0⟩ 5 = (true, some ⟨3/5, 4/5, 0⟩) ∧
      Vec3.dot ⟨3/5, 4/5, 0⟩ ((⟨0, 0, 0⟩ : Vec3) - ⟨3, 4, 0⟩) < 0 := by
  norm_num [CollisionDetector.check_sphere_sphere, Vec3.normSq, Vec3.dot,
    Vec3.sub_def, Vec3.smul_def]

/-- C2, amended: `check_sphere_sphere` reports a hit iff the squared center
distance is strictly below (r1+r2)²; on a non-degenerate hit (squared distance
above 1e-4) the normal is the normalization of pos2 − pos1 — unit length, a
positive multiple of pos2 − pos1, hence pointing from the first sphere toward
the second — and in the degenerate case (squared distance ≤ 1e-4) it is the
fixed fallback +Y.  `s` is assumed to return the exact square root at the one
point where the code takes one. -/
theorem C2_sphere_sphere_amended (s : ℚ → ℚ) (pos1 : Vec3) (radius1 : ℚ)
    (pos2 : Vec3) (radius2 : ℚ)
    (hs : s (Vec3.normSq (pos2 - pos1)) * s (Vec3.normSq (pos2 - pos1)) =
      Vec3.normSq (pos2 - pos1))
    (hs0 : 0 ≤ s (Vec3.normSq (pos2 - pos1))) :
    ((CollisionDetector.check_sphere_sphere s pos1 radius1 pos2 radius2).1 = true ↔
      Vec3.normSq (pos2 - pos1) < (radius1 + radius2) * (radius1 + radius2)) ∧
    (Vec3.normSq (pos2 - pos1) < (radius1 + radius2) * (radius1 + radius2) →
      (0.0001 : ℚ) < Vec3.normSq (pos2 - pos1) →
      (CollisionDetector.check_sphere_sphere s pos1 radius1 pos2 radius2).2 =
          some ((1 / s (Vec3.normSq (pos2 - pos1))) • (pos2 - pos1)) ∧
        Vec3.normSq ((1 / s (Vec3.normSq (pos2 - pos1))) • (pos2 - pos1)) = 1 ∧
        0 < 1 / s (Vec3.normSq (pos2 - pos1))) ∧
    (Vec3.normSq (pos2 - pos1) < (radius1 + radius2) * (radius1 + radius2) →
      Vec3.normSq (pos2 - pos1) ≤ (0.0001 : ℚ) →
      (CollisionDetector.check_sphere_sphere s pos1 radius1 pos2 radius2).2 =
        some ⟨0, 1, 0⟩) := by
  have hpos : ∀ h2 : (0.0001 : ℚ) < Vec3.normSq (pos2 - pos1),
      0 < s (Vec3.normSq (pos2 - pos1)) := by
    intro h2
    rcases lt_or_eq_of_le hs0 with h | h
    · exact h
    · exfalso
      rw [← h] at hs
      simp at hs
      rw [← hs] at h2
      norm_num at h2
  refine ⟨?_, ?_, ?_⟩
  · simp only [CollisionDetector.check_sphere_sphere]
    split_ifs with h1 h2 <;> simp [h1]
  · intro h1 h2
    have hsp := hpos h2
    have hne : s (Vec3.normSq (pos2 - pos1)) ≠ 0 := ne_of_gt hsp
    refine ⟨?_, ?_, ?_⟩
    · simp only [CollisionDetector.check_sphere_sphere]
      rw [if_pos h1, if_pos h2]
    · rw [Vec3.normSq_smul]
      field_simp
      nlinarith [hs]
    · positivity
  · intro h1 h2
    simp only [CollisionDetector.check_sphere_sphere]
    rw [if_pos h1, if_neg (by exact not_lt.mpr h2)]

/-- C2, witness: the amended theorem applied to sphere A at the origin
(radius 1) and sphere B at (3,4,0) (radius 5), with the exact square root 5
supplied for the squared distance 25. -/
theorem C2_sphere_sphere_amended_witness :
    (CollisionDetector.check_sphere_sphere (fun q => if q = 25 then 5 else 0)
        ⟨0, 0, 0⟩ 1 ⟨3, 4, 0⟩ 5).1 = true := by
  have h := (C2_sphere_sphere_amended (fun q => if q = 25 then 5 else 0)
    ⟨0, 0, 0⟩ 1 ⟨3, 4, 0⟩ 5
    (by norm_num [Vec3.normSq, Vec3.dot, Vec3.sub_def])
    (by norm_num [Vec3.normSq, Vec3.dot, Vec3.sub_def])).1
  rw [h]
  norm_num [Vec3.normSq, Vec3.dot, Vec3.sub_def]

/-- C3, counterexample: object 1 is in layer p, object 2 in layer q, and the
matrix declares only the direction q → p (that is, layer(B) → layer(A)); the
manager does not check the pair, contradicting the claim that a permission
declared only in the direction layer(B) → layer(A) still causes a check. -/
theorem C3_counterexample :
    CollisionManager.should_check_collision [("p", [1]), ("q", [2])] 1 2
        [("q", ["p"])] = false ∧
      assoc? [("q", ["p"])] "q" = some ["p"] := by
  constructor
  · rfl
  · rfl

/-- C3, amended: a collision check is performed for a pair exactly when some
layer of the first object maps, in the matrix direction layer(A) → layer(B),
to some layer of the second object; only that direction is consulted — a
permission declared only as layer(B) → layer(A) does not cause a check, and
when neither direction is declared no check occurs. -/
theorem C3_should_check_amended (collision_layers : CollisionManager.Layers)
    (obj1_id obj2_id : ℕ) (collision_matrix : CollisionManager.Matrix) :
    CollisionManager.should_check_collision collision_layers obj1_id obj2_id
        collision_matrix = true ↔
      ∃ layer1 layer2 cols,
        layer1 ∈ CollisionManager.layersOf collision_layers obj1_id ∧
        layer2 ∈ CollisionManager.layersOf collision_layers obj2_id ∧
        assoc? collision_matrix layer1 = some cols ∧ layer2 ∈ cols := by
  simp only [CollisionManager.should_check_collision, List.any_eq_true]
  constructor
  · rintro ⟨layer1, hl1, h⟩
    cases hm : assoc? collision_matrix layer1 with
    | none => rw [hm] at h; exact absurd h (by simp)
    | some cols =>
      rw [hm] at h
      simp only [List.any_eq_true, decide_eq_true_eq] at h
      obtain ⟨layer2, hl2, hc⟩ := h
      exact ⟨layer1, layer2, cols, hl1, hl2, hm, hc⟩
  · rintro ⟨layer1, layer2, cols, hl1, hl2, hm, hc⟩
    refine ⟨layer1, hl1, ?_⟩
    rw [hm]
    simp only [List.any_eq_true, decide_eq_true_eq]
    exact ⟨layer2, hl2, hc⟩

/-- C6, confirmed: for positive masses and a non-degenerate contact
(center distance at least 1e-4, square root supplied exactly),
`resolve_sphere_collision` (a) conserves total momentum
m1·v1 + m2·v2 in every branch, (b) with restitution 0 and the bodies not
separating returns velocities with equal components along the contact normal,
and (c) returns both velocities unchanged when the bodies are separating
(positive relative velocity along the normal). -/
theorem C6_resolve_sphere_collision (s : ℚ → ℚ) (pos1 velocity1 : Vec3)
    (mass1 radius1 : ℚ) (pos2 velocity2 : Vec3) (mass2 radius2 : ℚ)
    (restitution : ℚ) (hm1 : 0 < mass1) (hm2 : 0 < mass2)
    (hs : s (Vec3.normSq (pos1 - pos2)) * s (Vec3.normSq (pos1 - pos2)) =
      Vec3.normSq (pos1 - pos2))
    (hnd : (0.0001 : ℚ) ≤ s (Vec3.normSq (pos1 - pos2))) :
    (mass1 • (CollisionResolver.resolve_sphere_collision s pos1 velocity1 mass1
          radius1 pos2 velocity2 mass2 radius2 restitution).1 +
        mass2 • (CollisionResolver.resolve_sphere_collision s pos1 velocity1 mass1
          radius1 pos2 velocity2 mass2 radius2 restitution).2 =
      mass1 • velocity1 + mass2 • velocity2) ∧
    (restitution = 0 →
      Vec3.dot (velocity1 - velocity2)
          ((1 / s (Vec3.normSq (pos1 - pos2))) • (pos1 - pos2)) ≤ 0 →
      Vec3.dot (CollisionResolver.resolve_sphere_collision s pos1 velocity1 mass1
          radius1 pos2 velocity2 mass2 radius2 restitution).1
          ((1 / s (Vec3.normSq (pos1 - pos2))) • (pos1 - pos2)) =
        Vec3.dot (CollisionResolver.resolve_sphere_collision s pos1 velocity1 mass1
          radius1 pos2 velocity2 mass2 radius2 restitution).2
          ((1 / s (Vec3.normSq (pos1 - pos2))) • (pos1 - pos2))) ∧
    (0 < Vec3.dot (velocity1 - velocity2)
          ((1 / s (Vec3.normSq (pos1 - pos2))) • (pos1 - pos2)) →
      CollisionResolver.resolve_sphere_collision s pos1 velocity1 mass1
          radius1 pos2 velocity2 mass2 radius2 restitution =
        (velocity1, velocity2)) := by
  have hd : ¬ s (Vec3.normSq (pos1 - pos2)) < 0.0001 := not_lt.mpr hnd
  have hspos : 0 < s (Vec3.normSq (pos1 - pos2)) := lt_of_lt_of_le (by norm_num) hnd
  have hsne : s (Vec3.normSq (pos1 - pos2)) ≠ 0 := ne_of_gt hspos
  have hm1' : mass1 ≠ 0 := ne_of_gt hm1
  have hm2' : mass2 ≠ 0 := ne_of_gt hm2
  simp only [CollisionResolver.resolve_sphere_collision, if_neg hd]
  set σ := s (Vec3.normSq (pos1 - pos2)) with hσ
  have hnn : Vec3.dot ((1 / σ) • (pos1 - pos2)) ((1 / σ) • (pos1 - pos2)) = 1 := by
    have h2 : Vec3.dot ((1 / σ) • (pos1 - pos2)) ((1 / σ) • (pos1 - pos2)) =
        (1 / σ) ^ 2 * Vec3.normSq (pos1 - pos2) := by
      simp only [Vec3.normSq, Vec3.dot, Vec3.smul_def, Vec3.sub_def]
      ring
    rw [h2, ← hs]
    field_simp
    ring
  refine ⟨?_, ?_, ?_⟩
  · split_ifs with h
    · rfl
    · exact momentum_helper velocity1 velocity2 _ _ _ _ hm1' hm2'
  · intro he hle
    simp only [if_neg (not_lt.mpr hle)]
    subst he
    have hinv : (1 / mass1 + 1 / mass2) ≠ 0 := by positivity
    generalize hn : (1 / σ) • (pos1 - pos2) = n at hnn hle ⊢
    simp only [Vec3.dot_add_left, Vec3.dot_sub_left, Vec3.dot_smul_left, hnn]
    field_simp
    ring
  · intro hgt
    rw [if_pos hgt]

/-- C6, witness: spheres at (0,0,0) and (3,4,0) (distance 5, square root
supplied exactly), masses 1 and 2, restitution 0; the momentum-conservation
clause of the theorem instantiated there. -/
theorem C6_resolve_sphere_collision_witness :
    (1 : ℚ) • (CollisionResolver.resolve_sphere_collision
        (fun q => if q = 25 then 5 else 0) ⟨0, 0, 0⟩ ⟨3, 4, 0⟩ 1 1
        ⟨3, 4, 0⟩ ⟨0, 0, 0⟩ 2 1 0).1 +
      (2 : ℚ) • (CollisionResolver.resolve_sphere_collision
        (fun q => if q = 25 then 5 else 0) ⟨0, 0, 0⟩ ⟨3, 4, 0⟩ 1 1
        ⟨3, 4, 0⟩ ⟨0, 0, 0⟩ 2 1 0).2 =
      (1 : ℚ) • (⟨3, 4, 0⟩ : Vec3) + (2 : ℚ) • (⟨0, 0, 0⟩ : Vec3) :=
  (C6_resolve_sphere_collision (fun q => if q = 25 then 5 else 0)
    ⟨0, 0, 0⟩ ⟨3, 4, 0⟩ 1 1 ⟨3, 4, 0⟩ ⟨0, 0, 0⟩ 2 1 0
    (by norm_num) (by norm_num)
    (by norm_num [Vec3.normSq, Vec3.dot, Vec3.sub_def])
    (by norm_num [Vec3.normSq, Vec3.dot, Vec3.sub_def])).1

theorem heapSet_keys (h : Heap) (r : Ref) (b : CBody) :
    (heapSet h r b).map Prod.fst = h.map Prod.fst := by
  induction h with
  | nil => rfl
  | cons p rest ih =>
    obtain ⟨r', b'⟩ := p
    by_cases hr : r' = r
    · simp [heapSet, hr]
    · simp [heapSet, hr, ih]

theorem writeVel_keys (d : PyDict) (h : Heap) (obj_id : ℕ) (v : Vec3) :
    (writeVel d h obj_id v).map Prod.fst = h.map Prod.fst := by
  rcases h1 : assoc? d obj_id with _ | r
  · simp [writeVel, h1]
  · rcases h2 : heapGet h r with _ | b
    · simp [writeVel, h1, h2]
    · simp [writeVel, h1, h2, heapSet_keys]

theorem writePos_keys (d : PyDict) (h : Heap) (obj_id : ℕ) (p : Vec3) :
    (writePos d h obj_id p).map Prod.fst = h.map Prod.fst := by
  rcases h1 : assoc? d obj_id with _ | r
  · simp [writePos, h1]
  · rcases h2 : heapGet h r with _ | b
    · simp [writePos, h1, h2]
    · simp [writePos, h1, h2, heapSet_keys]

theorem process_pair_keys (s : ℚ → ℚ) (L : CollisionManager.Layers)
    (M : CollisionManager.Matrix) (e : ℚ) (d : PyDict) (hr hw : Heap)
    (ids : ℕ × ℕ) :
    (CollisionManager.process_pair s L M e d hr hw ids).map Prod.fst =
      hw.map Prod.fst := by
  unfold CollisionManager.process_pair
  dsimp only
  repeat' split
  all_goals first
  | rfl
  | simp [writeVel_keys, writePos_keys]

theorem foldl_pairs_keys (s : ℚ → ℚ) (L : CollisionManager.Layers)
    (M : CollisionManager.Matrix) (e : ℚ) (d : PyDict)
    (pairs : List (ℕ × ℕ)) (h : Heap) :
    (pairs.foldl
        (fun hh ids => CollisionManager.process_pair s L M e d hh hh ids)
        h).map Prod.fst = h.map Prod.fst := by
  induction pairs generalizing h with
  | nil => rfl
  | cons p rest ih =>
    rw [List.foldl_cons, ih, process_pair_keys]

/-- C1, amended: `process_collisions` copies only the top-level id → reference
table; the body records are shared, so all corrections are applied in place to
the caller's records (no record added or removed), the returned table is
entry-for-entry the caller's table, and the caller's view of every body after
the call coincides with the returned snapshot — the input snapshot is not left
unchanged, and (per the counterexample) an earlier pair's corrections do feed
into later pairs of the same pass. -/
theorem C1_process_collisions_amended (s : ℚ → ℚ)
    (L : CollisionManager.Layers) (d : PyDict) (h : Heap)
    (M : CollisionManager.Matrix) (e : ℚ) :
    (CollisionManager.process_collisions s L d h M e).1 = d ∧
    (∀ obj_id : ℕ,
      viewBody (CollisionManager.process_collisions s L d h M e).1
          (CollisionManager.process_collisions s L d h M e).2 obj_id =
        viewBody d (CollisionManager.process_collisions s L d h M e).2 obj_id) ∧
    (CollisionManager.process_collisions s L d h M e).2.map Prod.fst =
      h.map Prod.fst :=
  ⟨rfl, fun _ => rfl, foldl_pairs_keys s L M e d _ h⟩

set_option maxHeartbeats 2000000 in
/-- C1, counterexample: three equal spheres of radius 2 at x = 0, 3, 6 (ids
0, 1, 2, all in one mutually-colliding layer, all at rest).  After
`process_collisions`, the caller's own snapshot shows body 1 moved (the input
snapshot is not left unchanged), and the result differs from the
spec-modelled variant in which every pair reads the unmodified input snapshot
(the pair (0,1) moves body 1 to x = 3.5, and the code's pair (1,2) sees that
correction while the spec's reads x = 3). -/
theorem C1_counterexample :
    viewBody [(0, 10), (1, 11), (2, 12)]
        (CollisionManager.process_collisions
          (fun q => if q = 9 then 3 else if q = 25/4 then 5/2 else 0)
          [("all", [0, 1, 2])] [(0, 10), (1, 11), (2, 12)]
          [(10, ⟨.sphere, ⟨0, 0, 0⟩, ⟨0, 0, 0⟩, 1, 2, ⟨1, 1, 1⟩⟩),
           (11, ⟨.sphere, ⟨3, 0, 0⟩, ⟨0, 0, 0⟩, 1, 2, ⟨1, 1, 1⟩⟩),
           (12, ⟨.sphere, ⟨6, 0, 0⟩, ⟨0, 0, 0⟩, 1, 2, ⟨1, 1, 1⟩⟩)]
          [("all", ["all"])] (1/2)).2 1 ≠
      viewBody [(0, 10), (1, 11), (2, 12)]
        [(10, ⟨.sphere, ⟨0, 0, 0⟩, ⟨0, 0, 0⟩, 1, 2, ⟨1, 1, 1⟩⟩),
         (11, ⟨.sphere, ⟨3, 0, 0⟩, ⟨0, 0, 0⟩, 1, 2, ⟨1, 1, 1⟩⟩),
         (12, ⟨.sphere, ⟨6, 0, 0⟩, ⟨0, 0, 0⟩, 1, 2, ⟨1, 1, 1⟩⟩)] 1 ∧
    (CollisionManager.process_collisions
        (fun q => if q = 9 then 3 else if q = 25/4 then 5/2 else 0)
        [("all", [0, 1, 2])] [(0, 10), (1, 11), (2, 12)]
        [(10, ⟨.sphere, ⟨0, 0, 0⟩, ⟨0, 0, 0⟩, 1, 2, ⟨1, 1, 1⟩⟩),
         (11, ⟨.sphere, ⟨3, 0, 0⟩, ⟨0, 0, 0⟩, 1, 2, ⟨1, 1, 1⟩⟩),
         (12, ⟨.sphere, ⟨6, 0, 0⟩, ⟨0, 0, 0⟩, 1, 2, ⟨1, 1, 1⟩⟩)]
        [("all", ["all"])] (1/2)).2 ≠
      (CollisionManager.process_collisions_spec
        (fun q => if q = 9 then 3 else if q = 25/4 then 5/2 else 0)
        [("all", [0, 1, 2])] [(0, 10), (1, 11), (2, 12)]
        [(10, ⟨.sphere, ⟨0, 0, 0⟩, ⟨0, 0, 0⟩, 1, 2, ⟨1, 1, 1⟩⟩),
         (11, ⟨.sphere, ⟨3, 0, 0⟩, ⟨0, 0, 0⟩, 1, 2, ⟨1, 1, 1⟩⟩),
         (12, ⟨.sphere, ⟨6, 0, 0⟩, ⟨0, 0, 0⟩, 1, 2, ⟨1, 1, 1⟩⟩)]
        [("all", ["all"])] (1/2)).2 := by
  norm_num [CollisionManager.process_collisions,
    CollisionManager.process_collisions_spec, CollisionManager.process_pair,
    CollisionManager.should_check_collision, CollisionManager.layersOf,
    CollisionManager.detect_pair, CollisionDetector.check_sphere_sphere,
    CollisionResolver.resolve_sphere_collision,
    CollisionResolver.resolve_penetration, orderedPairs, viewBody, writeVel,
    writePos, heapGet, heapSet, assoc?, Vec3.normSq, Vec3.dot, Vec3.sub_def,
    Vec3.add_def, Vec3.smul_def]

set_option maxHeartbeats 2000000 in
/-- C4: the code negates the sphere-box normal when the FIRST body is the
sphere and the second the box (collision.py:490-491), not — as the claim and
spec state — when the box is first.  At this input a sphere at (46/5,0,0) of
radius 1 moving (1,0,0) overlaps a box at (21/2,0,0) with half-size 1/2 and is
approaching it (the detector's box-to-sphere normal (−1,0,0) has negative dot
with the relative velocity, second conjunct), yet `process_collisions` leaves
every body untouched in both pair orders (first and third conjuncts): after
negation the approach reads as separation and resolution is skipped, so an
approaching overlapping sphere-box pair is never resolved. -/
theorem C4_negation_misplaced :
    CollisionManager.process_collisions (fun q => if q = 16/25 then 4/5 else 0)
        [("all", [0, 1])] [(0, 20), (1, 21)]
        [(20, ⟨.sphere, ⟨46/5, 0, 0⟩, ⟨1, 0, 0⟩, 1, 1, ⟨1, 1, 1⟩⟩),
         (21, ⟨.box, ⟨21/2, 0, 0⟩, ⟨0, 0, 0⟩, 1, 1, ⟨1/2, 1/2, 1/2⟩⟩)]
        [("all", ["all"])] (1/2) =
      ([(0, 20), (1, 21)],
       [(20, ⟨.sphere, ⟨46/5, 0, 0⟩, ⟨1, 0, 0⟩, 1, 1, ⟨1, 1, 1⟩⟩),
        (21, ⟨.box, ⟨21/2, 0, 0⟩, ⟨0, 0, 0⟩, 1, 1, ⟨1/2, 1/2, 1/2⟩⟩)]) ∧
    (CollisionDetector.check_sphere_box (fun q => if q = 16/25 then 4/5 else 0)
        ⟨46/5, 0, 0⟩ 1 ⟨21/2, 0, 0⟩ ⟨1/2, 1/2, 1/2⟩ =
      (true, some ⟨-1, 0, 0⟩) ∧
      Vec3.dot (⟨1, 0, 0⟩ - ⟨0, 0, 0⟩) ⟨-1, 0, 0⟩ < 0) ∧
    CollisionManager.process_collisions (fun q => if q = 16/25 then 4/5 else 0)
        [("all", [0, 1])] [(0, 21), (1, 20)]
        [(20, ⟨.sphere, ⟨46/5, 0, 0⟩, ⟨1, 0, 0⟩, 1, 1, ⟨1, 1, 1⟩⟩),
         (21, ⟨.box, ⟨21/2, 0, 0⟩, ⟨0, 0, 0⟩, 1, 1, ⟨1/2, 1/2, 1/2⟩⟩)]
        [("all", ["all"])] (1/2) =
      ([(0, 21), (1, 20)],
       [(20, ⟨.sphere, ⟨46/5, 0, 0⟩, ⟨1, 0, 0⟩, 1, 1, ⟨1, 1, 1⟩⟩),
        (21, ⟨.box, ⟨21/2, 0, 0⟩, ⟨0, 0, 0⟩, 1, 1, ⟨1/2, 1/2, 1/2⟩⟩)]) := by
  have hsb : CollisionDetector.check_sphere_box
      (fun q => if q = 16/25 then 4/5 else 0) ⟨46/5, 0, 0⟩ 1 ⟨21/2, 0, 0⟩
      ⟨1/2, 1/2, 1/2⟩ = (true, some ⟨-1, 0, 0⟩) := by
    norm_num [CollisionDetector.check_sphere_box, Vec3.normSq, Vec3.dot,
      Vec3.sub_def, Vec3.smul_def]
  have hdet1 : CollisionManager.detect_pair
      (fun q => if q = 16/25 then 4/5 else 0)
      ⟨.sphere, ⟨46/5, 0, 0⟩, ⟨1, 0, 0⟩, 1, 1, ⟨1, 1, 1⟩⟩
      ⟨.box, ⟨21/2, 0, 0⟩, ⟨0, 0, 0⟩, 1, 1, ⟨1/2, 1/2, 1/2⟩⟩ =
      (true, some ⟨1, 0, 0⟩) := by
    norm_num [CollisionManager.detect_pair, hsb, Vec3.neg_def]
  have hdet2 : CollisionManager.detect_pair
      (fun q => if q = 16/25 then 4/5 else 0)
      ⟨.box, ⟨21/2, 0, 0⟩, ⟨0, 0, 0⟩, 1, 1, ⟨1/2, 1/2, 1/2⟩⟩
      ⟨.sphere, ⟨46/5, 0, 0⟩, ⟨1, 0, 0⟩, 1, 1, ⟨1, 1, 1⟩⟩ =
      (true, some ⟨-1, 0, 0⟩) := by
    norm_num [CollisionManager.detect_pair, hsb]
  refine ⟨?_, ⟨hsb, by norm_num [Vec3.dot, Vec3.sub_def]⟩, ?_⟩ <;>
  norm_num [CollisionManager.process_collisions, CollisionManager.process_pair,
    CollisionManager.should_check_collision, CollisionManager.layersOf,
    hdet1, hdet2, orderedPairs, viewBody, writeVel,
    writePos, heapGet, heapSet, assoc?, Shape.box_ne_sphere,
    Shape.sphere_ne_box, Vec3.normSq, Vec3.dot,
    Vec3.sub_def, Vec3.add_def, Vec3.smul_def, Vec3.neg_def]

theorem assoc?_map {β γ : Type} (f : β → γ) (l : List (ℕ × β)) (k : ℕ) :
    assoc? (l.map (fun p => (p.1, f p.2))) k = (assoc? l k).map f := by
  induction l with
  | nil => rfl
  | cons p rest ih =>
    obtain ⟨a, b⟩ := p
    by_cases h : a = k <;> simp [assoc?, h, ih]

/-- C10, confirmed: `process_dash` leaves the body entirely unchanged when the
dash direction's computed magnitude is at most 0.001 (the guarded
normalization is skipped, so no division by zero occurs), and otherwise adds
normalized(direction) · force / mass to the velocity, changing no other
field. -/
theorem C10_process_dash (s : ℚ → ℚ) (obj : MBody) (dash_direction : Vec3)
    (dash_force : ℚ) (hm : obj.mass.getD 1 ≠ 0) :
    (s (Vec3.normSq dash_direction) ≤ 0.001 →
      OmniMovement.process_dash s obj dash_direction dash_force = obj) ∧
    ((0.001 : ℚ) < s (Vec3.normSq dash_direction) →
      OmniMovement.process_dash s obj dash_direction dash_force =
        { obj with velocity := obj.velocity +
            (dash_force / (s (Vec3.normSq dash_direction) * obj.mass.getD 1)) •
              dash_direction }) := by
  constructor
  · intro h
    simp only [OmniMovement.process_dash]
    rw [if_neg (not_lt.mpr h)]
  · intro h
    simp only [OmniMovement.process_dash, Motion.apply_impulse]
    rw [if_pos h]
    congr 1
    simp only [Vec3.add_def, Vec3.smul_def, Vec3.mk.injEq]
    refine ⟨?_, ?_, ?_⟩ <;> field_simp <;> ring

/-- C10, witness: dash direction (3,4,0) of magnitude 5 with force 10 on a
unit-mass body moving (1,1,1): the dash adds (6,8,0). -/
theorem C10_process_dash_witness :
    OmniMovement.process_dash (fun q => if q = 25 then 5 else 0)
        { position := ⟨0, 0, 0⟩, velocity := ⟨1, 1, 1⟩ } ⟨3, 4, 0⟩ 10 =
      { position := ⟨0, 0, 0⟩, velocity := ⟨7, 9, 1⟩ } := by
  have h := (C10_process_dash (fun q => if q = 25 then 5 else 0)
    { position := ⟨0, 0, 0⟩, velocity := ⟨1, 1, 1⟩ } ⟨3, 4, 0⟩ 10
    (by norm_num)).2 (by norm_num [Vec3.normSq, Vec3.dot])
  rw [h]
  norm_num [Vec3.normSq, Vec3.dot, Vec3.smul_def, Vec3.add_def]

/-- C8: `modify_gravity` has no zero-norm guard on the blended direction.
With the global direction (0,−1,0) and zone direction (0,1,0) — both unit
vectors (middle conjuncts) — and a body at distance 1 inside a zone of radius
2 centered at the origin (influence 1/2, above the 0.05 threshold, last
conjunct), the blend (1−0.5)·g + 0.5·z is the zero vector and the
normalization divides by a zero norm: in numpy this produces NaN components,
modeled as `none` (first conjunct) — not a finite unit-length direction. -/
theorem C8_blend_nan :
    GravityZone.modify_gravity (fun q => if q = 1 then 1 else 0)
        { position := ⟨0, 0, 0⟩, radius := 2, gravity_modifier := 1,
          gravity_direction := some ⟨0, 1, 0⟩, is_enabled := true }
        { gravity_constant := 9.81, gravity_direction := ⟨0, -1, 0⟩ }
        ⟨1, 0, 0⟩ (1/20) = none ∧
      Vec3.normSq ⟨0, -1, 0⟩ = 1 ∧ Vec3.normSq ⟨0, 1, 0⟩ = 1 ∧
      (1/20 : ℚ) < GravityZone.get_influence_factor
        (fun q => if q = 1 then 1 else 0)
        { position := ⟨0, 0, 0⟩, radius := 2, gravity_modifier := 1,
          gravity_direction := some ⟨0, 1, 0⟩, is_enabled := true }
        ⟨1, 0, 0⟩ := by
  norm_num [GravityZone.modify_gravity, GravityZone.get_influence_factor,
    GravityZone.is_in_zone, Vec3.normSq, Vec3.dot, Vec3.sub_def, Vec3.add_def,
    Vec3.smul_def]

/-- C9, amended: in `MotionPhysicsSystem.update` a body whose `has_physics`
field is present and false is passed through with every field untouched;
a body whose `has_physics` is absent defaults to physics-enabled
(`obj.get('has_physics', True)`) and, like one with the flag true, is run
through the motion integrator, additionally followed by the omni-movement
controller exactly when it has a true controller flag and an
`input_direction`. -/
theorem C9_update_amended (s : ℚ → ℚ) (objs : List (ℕ × MBody))
    (delta_time : ℚ) (obj_id : ℕ) (b : MBody)
    (hb : assoc? objs obj_id = some b) :
    (b.has_physics = some false →
      assoc? (MotionPhysicsSystem.update s objs delta_time) obj_id = some b) ∧
    (b.has_physics ≠ some false →
      assoc? (MotionPhysicsSystem.update s objs delta_time) obj_id =
        some (if b.has_controller.getD false ∧ b.input_direction.isSome then
            OmniMovement.apply_movement_input s {}
              (Motion.process_object_motion s {} b delta_time)
              (b.input_direction.getD ⟨0, 0, 0⟩) delta_time
              (b.is_sprinting.getD false) (b.is_crouching.getD false)
          else Motion.process_object_motion s {} b delta_time)) := by
  unfold MotionPhysicsSystem.update
  rw [assoc?_map (MotionPhysicsSystem.update_step s delta_time) objs obj_id, hb]
  constructor
  · intro h
    simp [MotionPhysicsSystem.update_step, h]
  · intro h
    rcases hbp : b.has_physics with _ | bv
    · simp [MotionPhysicsSystem.update_step, hbp]
    · rcases bv with _ | _
      · exact absurd hbp h
      · simp [MotionPhysicsSystem.update_step, hbp]

/-- C9, witness: the amended theorem applied to a one-body store whose body
has `has_physics = False`: the body comes back untouched. -/
theorem C9_update_amended_witness :
    assoc? (MotionPhysicsSystem.update (fun _ => 0)
        [(7, { position := ⟨1, 2, 3⟩, velocity := ⟨4, 5, 6⟩,
               has_physics := some false })] 1) 7 =
      some { position := ⟨1, 2, 3⟩, velocity := ⟨4, 5, 6⟩,
             has_physics := some false } :=
  (C9_update_amended (fun _ => 0)
    [(7, { position := ⟨1, 2, 3⟩, velocity := ⟨4, 5, 6⟩,
           has_physics := some false })] 1 7
    { position := ⟨1, 2, 3⟩, velocity := ⟨4, 5, 6⟩, has_physics := some false }
    (by simp [assoc?])).1 rfl

/-- C9, counterexample: a grounded body moving (3,0,4) that LACKS the
`has_physics` field entirely (`none`).  The claim says such a body is passed
through untouched; the code's `obj.get('has_physics', True)` defaults to True,
so the integrator runs (air resistance and ground friction scale the velocity,
and the position moves): the update does not return the body unchanged. -/
theorem C9_counterexample :
    ({ position := ⟨0, 0, 0⟩, velocity := ⟨3, 0, 4⟩,
       is_grounded := some true } : MBody).has_physics = none ∧
    MotionPhysicsSystem.update
        (fun q => if q = 25 then 5 else if q = 9801/400 then 99/20
          else if q = 15752961/1000000 then 3969/1000 else 0)
        [(0, { position := ⟨0, 0, 0⟩, velocity := ⟨3, 0, 4⟩,
               is_grounded := some true })] 1 ≠
      [(0, { position := ⟨0, 0, 0⟩, velocity := ⟨3, 0, 4⟩,
             is_grounded := some true })] := by
  refine ⟨rfl, ?_⟩
  norm_num [MotionPhysicsSystem.update, MotionPhysicsSystem.update_step,
    Motion.process_object_motion, Motion.apply_gravity,
    Motion.apply_air_resistance, Motion.apply_ground_friction,
    Motion.update_position, Vec3.normSq, Vec3.dot, Vec3.add_def, Vec3.sub_def,
    Vec3.smul_def, Vec3.neg_def]

/-- C7, counterexample: a grounded body with horizontal velocity (0.1, 0, 0),
zero input and `delta_time` = 0.1.  One call to `apply_movement_input`
produces velocity (−2.4, 0, 0): the deceleration step `deceleration · dt`
(= 2.5) overshoots the current speed (0.1) with no clamp, so the horizontal
speed grows (second conjunct) and the direction reverses (the new x-component
has opposite sign, third conjunct) — repeated calls do not monotonically
reduce the speed toward zero and do not clamp at zero. -/
theorem C7_counterexample :
    OmniMovement.apply_movement_input (fun q => if q = 1/100 then 1/10 else 0)
        {} { position := ⟨0, 0, 0⟩, velocity := ⟨1/10, 0, 0⟩,
             is_grounded := some true } ⟨0, 0, 0⟩ (1/10) false false =
      { position := ⟨0, 0, 0⟩, velocity := ⟨-12/5, 0, 0⟩,
        is_grounded := some true } ∧
    Vec3.normSq ⟨1/10, 0, 0⟩ < Vec3.normSq ⟨-12/5, 0, 0⟩ ∧
    (-12/5 : ℚ) * (1/10) < 0 := by
  norm_num [OmniMovement.apply_movement_input,
    OmniMovement.calculate_move_direction, Motion.apply_force, Vec3.cross,
    Vec3.normSq, Vec3.dot, Vec3.add_def, Vec3.sub_def, Vec3.smul_def,
    Vec3.neg_def]

/-- C7, amended: with zero input, a positive effective deceleration step and a
horizontal speed above the 0.001 threshold, one call to
`apply_movement_input` scales the horizontal (X/Z) velocity by the factor
c = 1 − D·dt/σ (σ the horizontal speed, D the deceleration, air-control-scaled
when airborne), leaving the vertical component and every other field
untouched; when the step D·dt does not exceed σ the factor lies in [0, 1), so
the horizontal speed strictly decreases and the direction never reverses —
but there is no clamp at zero: as the counterexample shows, a step D·dt
larger than σ makes the factor negative and reverses the direction. -/
theorem C7_decel_amended (s : ℚ → ℚ) (om : OmniMovement) (obj : MBody)
    (delta_time : ℚ) (is_sprinting is_crouching : Bool) (D σ c : ℚ)
    (hD : D = if obj.is_grounded.getD true then om.deceleration
      else om.deceleration * om.air_control)
    (hσ : σ = s (Vec3.normSq ⟨obj.velocity.x, 0, obj.velocity.z⟩))
    (hc : c = 1 - D * delta_time / σ)
    (h0 : s 0 = 0)
    (hb : (0.001 : ℚ) < σ)
    (hm : obj.mass.getD 1 ≠ 0)
    (hk0 : 0 < D * delta_time)
    (hk1 : D * delta_time ≤ σ) :
    OmniMovement.apply_movement_input s om obj ⟨0, 0, 0⟩ delta_time
        is_sprinting is_crouching =
      { obj with velocity :=
          ⟨c * obj.velocity.x, obj.velocity.y, c * obj.velocity.z⟩ } ∧
    0 ≤ c ∧ c < 1 ∧
    Vec3.normSq ⟨c * obj.velocity.x, 0, c * obj.velocity.z⟩ ≤
      Vec3.normSq ⟨obj.velocity.x, 0, obj.velocity.z⟩ := by
  have hσpos : 0 < σ := lt_trans (by norm_num) hb
  have hσne : σ ≠ 0 := ne_of_gt hσpos
  have hc0 : 0 ≤ c := by
    rw [hc]
    have : D * delta_time / σ ≤ 1 := (div_le_one hσpos).mpr hk1
    linarith
  have hc1 : c < 1 := by
    rw [hc]
    have : 0 < D * delta_time / σ := div_pos hk0 hσpos
    linarith
  refine ⟨?_, hc0, hc1, ?_⟩
  · simp only [OmniMovement.apply_movement_input]
    have hz : Vec3.normSq (⟨0, 0, 0⟩ : Vec3) = 0 := by
      norm_num [Vec3.normSq, Vec3.dot]
    rw [hz, h0, if_neg (by norm_num), ← hσ, if_pos hb, ← hD]
    congr 1
    simp only [Motion.apply_force, Vec3.add_def, Vec3.smul_def, Vec3.mk.injEq]
    subst hc
    refine ⟨?_, trivial, ?_⟩ <;> field_simp <;> ring
  · have hcc : c * c ≤ 1 := by nlinarith
    simp only [Vec3.normSq, Vec3.dot]
    nlinarith [hcc, sq_nonneg obj.velocity.x, sq_nonneg obj.velocity.z]

/-- C7, witness: the amended theorem at a grounded body with velocity (3,0,4)
(horizontal speed 5), default parameters (deceleration 25) and
`delta_time` = 0.1: the step 2.5 is admissible and the horizontal velocity is
scaled by exactly 1/2. -/
theorem C7_decel_amended_witness :
    OmniMovement.apply_movement_input (fun q => if q = 25 then 5 else 0)
        {} { position := ⟨0, 0, 0⟩, velocity := ⟨3, 0, 4⟩,
             is_grounded := some true } ⟨0, 0, 0⟩ (1/10) false false =
      { position := ⟨0, 0, 0⟩, velocity := ⟨3/2, 0, 2⟩,
        is_grounded := some true } := by
  have h := (C7_decel_amended (fun q => if q = 25 then 5 else 0) {}
    { position := ⟨0, 0, 0⟩, velocity := ⟨3, 0, 4⟩, is_grounded := some true }
    (1/10) false false 25 5 (1/2)
    (by norm_num) (by norm_num [Vec3.normSq, Vec3.dot]) (by norm_num)
    (by norm_num) (by norm_num) (by norm_num) (by norm_num) (by norm_num)).1
  rw [h]
  norm_num

theorem mk_hit_object (s : ℚ → ℚ) (o dir : Vec3)
    (obj : CollisionDetector.RayObj) (t : ℚ) :
    (CollisionDetector.mk_hit s o dir obj t).object = obj := by
  cases obj <;> rfl

theorem mk_hit_distance (s : ℚ → ℚ) (o dir : Vec3)
    (obj : CollisionDetector.RayObj) (t : ℚ) :
    (CollisionDetector.mk_hit s o dir obj t).distance = t := by
  cases obj <;> rfl

theorem ray_cast_step_eq (s : ℚ → ℚ) (o dir : Vec3)
    (st : Option CollisionDetector.RayHit × ℚ) (obj : CollisionDetector.RayObj) :
    CollisionDetector.ray_cast_step s o dir st obj =
      Option.elim (CollisionDetector.cand_dist s o dir obj) st
        (fun t =>
          if t < st.2 then (some (CollisionDetector.mk_hit s o dir obj t), t)
          else st) := by
  cases obj with
  | sphere sphere_pos sphere_radius =>
    by_cases h1 : Vec3.dot (sphere_pos - o) dir < 0
    · have hc : CollisionDetector.cand_dist s o dir
          (.sphere sphere_pos sphere_radius) = none := by
        simp only [CollisionDetector.cand_dist]
        rw [if_pos h1]
      rw [hc]
      simp only [Option.elim, CollisionDetector.ray_cast_step]
      rw [if_pos h1]
    · by_cases h2 : Vec3.normSq ((o + (Vec3.dot (sphere_pos - o) dir) • dir) -
          sphere_pos) > sphere_radius * sphere_radius
      · have hc : CollisionDetector.cand_dist s o dir
            (.sphere sphere_pos sphere_radius) = none := by
          simp only [CollisionDetector.cand_dist]
          rw [if_neg h1, if_pos h2]
        rw [hc]
        simp only [Option.elim, CollisionDetector.ray_cast_step]
        rw [if_neg h1, if_pos h2]
      · have hc : CollisionDetector.cand_dist s o dir
            (.sphere sphere_pos sphere_radius) =
            some (Vec3.dot (sphere_pos - o) dir -
              s (sphere_radius * sphere_radius -
                Vec3.normSq ((o + (Vec3.dot (sphere_pos - o) dir) • dir) -
                  sphere_pos))) := by
          simp only [CollisionDetector.cand_dist]
          rw [if_neg h1, if_neg h2]
        rw [hc]
        simp only [Option.elim, CollisionDetector.ray_cast_step,
          CollisionDetector.mk_hit]
        by_cases h3 : Vec3.dot (sphere_pos - o) dir -
            s (sphere_radius * sphere_radius -
              Vec3.normSq ((o + (Vec3.dot (sphere_pos - o) dir) • dir) -
                sphere_pos)) < st.2
        · rw [if_neg h1, if_neg h2, if_pos h3]
        · rw [if_neg h1, if_neg h2, if_neg h3]
  | box box_pos box_half_size =>
    have hh : ∀ res : Option (ℚ × ℕ × ℚ),
        CollisionDetector.ray_box_hit o dir box_pos box_half_size = res →
        CollisionDetector.ray_cast_step s o dir st
            (.box box_pos box_half_size) =
          Option.elim (CollisionDetector.cand_dist s o dir
              (.box box_pos box_half_size)) st
            (fun t =>
              if t < st.2 then
                (some (CollisionDetector.mk_hit s o dir
                  (.box box_pos box_half_size) t), t)
              else st) := by
      intro res hres
      cases res with
      | none =>
        have hc : CollisionDetector.cand_dist s o dir
            (.box box_pos box_half_size) = none := by
          simp only [CollisionDetector.cand_dist, hres, Option.elim]
        rw [hc]
        simp only [CollisionDetector.ray_cast_step, hres, Option.elim]
      | some tas =>
        obtain ⟨t, axis, sign⟩ := tas
        by_cases h1 : 0 < t
        · have hc : CollisionDetector.cand_dist s o dir
              (.box box_pos box_half_size) = some t := by
            simp only [CollisionDetector.cand_dist, hres, Option.elim]
            rw [if_pos h1]
          rw [hc]
          simp only [CollisionDetector.ray_cast_step,
            CollisionDetector.mk_hit, hres, Option.elim]
          by_cases h2 : t < st.2
          · rw [if_pos (And.intro h1 h2), if_pos h2]
          · rw [if_neg (fun hand : 0 < t ∧ t < st.2 => h2 hand.2), if_neg h2]
        · have hc : CollisionDetector.cand_dist s o dir
              (.box box_pos box_half_size) = none := by
            simp only [CollisionDetector.cand_dist, hres, Option.elim]
            rw [if_neg h1]
          rw [hc]
          simp only [CollisionDetector.ray_cast_step, hres, Option.elim]
          rw [if_neg (fun hand : 0 < t ∧ t < st.2 => h1 hand.1)]
    exact hh _ rfl

theorem best_from_none_iff (s : ℚ → ℚ) (o dir : Vec3) :
    ∀ (objs : List CollisionDetector.RayObj) (c : ℚ),
      CollisionDetector.best_from s o dir c objs = none ↔
        ∀ obj ∈ objs, ∀ t, CollisionDetector.cand_dist s o dir obj = some t →
          ¬ t < c := by
  intro objs
  induction objs with
  | nil => intro c; simp [CollisionDetector.best_from]
  | cons obj rest ih =>
    intro c
    cases hcd : CollisionDetector.cand_dist s o dir obj with
    | none =>
      simp only [CollisionDetector.best_from, hcd]
      rw [ih c]
      constructor
      · intro h x hx t ht
        rcases List.mem_cons.mp hx with rfl | hx'
        · rw [hcd] at ht; exact absurd ht (by simp)
        · exact h x hx' t ht
      · intro h x hx t ht
        exact h x (List.mem_cons_of_mem _ hx) t ht
    | some t0 =>
      simp only [CollisionDetector.best_from, hcd]
      by_cases h0 : t0 < c
      · rw [if_pos h0]
        constructor
        · intro h
          exfalso
          cases hb : CollisionDetector.best_from s o dir t0 rest <;>
            rw [hb] at h <;> simp at h
        · intro h
          exact absurd h0 (h obj (List.mem_cons_self _ _) t0 hcd)
      · rw [if_neg h0, ih c]
        constructor
        · intro h x hx t ht
          rcases List.mem_cons.mp hx with rfl | hx'
          · rw [hcd] at ht
            injection ht with ht
            subst ht
            exact h0
          · exact h x hx' t ht
        · intro h x hx t ht
          exact h x (List.mem_cons_of_mem _ hx) t ht

theorem best_from_some (s : ℚ → ℚ) (o dir : Vec3) :
    ∀ (objs : List CollisionDetector.RayObj) (c t : ℚ)
      (w : CollisionDetector.RayObj),
      CollisionDetector.best_from s o dir c objs = some (w, t) →
        t < c ∧ CollisionDetector.cand_dist s o dir w = some t ∧
        (∀ obj ∈ objs, ∀ t', CollisionDetector.cand_dist s o dir obj = some t' →
          t ≤ t') ∧
        ∃ pre post, objs = pre ++ w :: post ∧
          ∀ obj ∈ pre, ∀ t', CollisionDetector.cand_dist s o dir obj = some t' →
            t < t' := by
  intro objs
  induction objs with
  | nil => intro c t w h; exact absurd h (by simp [CollisionDetector.best_from])
  | cons obj rest ih =>
    intro c t w h
    cases hcd : CollisionDetector.cand_dist s o dir obj with
    | none =>
      simp only [CollisionDetector.best_from, hcd] at h
      obtain ⟨h1, h2, h3, pre, post, heq, hpre⟩ := ih c t w h
      refine ⟨h1, h2, ?_, obj :: pre, post, by simp [heq], ?_⟩
      · intro x hx t' ht'
        rcases List.mem_cons.mp hx with rfl | hx'
        · rw [hcd] at ht'; exact absurd ht' (by simp)
        · exact h3 x hx' t' ht'
      · intro x hx t' ht'
        rcases List.mem_cons.mp hx with rfl | hx'
        · rw [hcd] at ht'; exact absurd ht' (by simp)
        · exact hpre x hx' t' ht'
    | some t0 =>
      simp only [CollisionDetector.best_from, hcd] at h
      by_cases h0 : t0 < c
      · rw [if_pos h0] at h
        cases hb : CollisionDetector.best_from s o dir t0 rest with
        | some r =>
          rw [hb] at h
          injection h with h
          subst h
          obtain ⟨h1, h2, h3, pre, post, heq, hpre⟩ := ih t0 t w hb
          refine ⟨lt_trans h1 h0, h2, ?_, obj :: pre, post, by simp [heq], ?_⟩
          · intro x hx t' ht'
            rcases List.mem_cons.mp hx with rfl | hx'
            · rw [hcd] at ht'
              injection ht' with ht'
              subst ht'
              exact le_of_lt h1
            · exact h3 x hx' t' ht'
          · intro x hx t' ht'
            rcases List.mem_cons.mp hx with rfl | hx'
            · rw [hcd] at ht'
              injection ht' with ht'
              subst ht'
              exact h1
            · exact hpre x hx' t' ht'
        | none =>
          rw [hb] at h
          injection h with h
          injection h with hw ht
          subst hw
          subst ht
          refine ⟨h0, hcd, ?_, [], rest, rfl, by simp⟩
          intro x hx t' ht'
          rcases List.mem_cons.mp hx with rfl | hx'
          · rw [hcd] at ht'
            injection ht' with ht'
            subst ht'
            exact le_refl _
          · exact le_of_not_lt ((best_from_none_iff s o dir rest t0).mp hb x hx' t' ht')
      · rw [if_neg h0] at h
        obtain ⟨h1, h2, h3, pre, post, heq, hpre⟩ := ih c t w h
        have hct0 : t < t0 := lt_of_lt_of_le h1 (le_of_not_lt h0)
        refine ⟨h1, h2, ?_, obj :: pre, post, by simp [heq], ?_⟩
        · intro x hx t' ht'
          rcases List.mem_cons.mp hx with rfl | hx'
          · rw [hcd] at ht'
            injection ht' with ht'
            subst ht'
            exact le_of_lt hct0
          · exact h3 x hx' t' ht'
        · intro x hx t' ht'
          rcases List.mem_cons.mp hx with rfl | hx'
          · rw [hcd] at ht'
            injection ht' with ht'
            subst ht'
            exact hct0
          · exact hpre x hx' t' ht'

theorem ray_cast_foldl_eq (s : ℚ → ℚ) (o dir : Vec3) :
    ∀ (objs : List CollisionDetector.RayObj)
      (h : Option CollisionDetector.RayHit) (c : ℚ),
      objs.foldl (CollisionDetector.ray_cast_step s o dir) (h, c) =
        Option.elim (CollisionDetector.best_from s o dir c objs) (h, c)
          (fun wt => (some (CollisionDetector.mk_hit s o dir wt.1 wt.2), wt.2)) := by
  intro objs
  induction objs with
  | nil => intro h c; simp [CollisionDetector.best_from]
  | cons obj rest ih =>
    intro h c
    rw [List.foldl_cons, ray_cast_step_eq]
    cases hcd : CollisionDetector.cand_dist s o dir obj with
    | none =>
      rw [Option.elim_none, ih]
      have hb : CollisionDetector.best_from s o dir c (obj :: rest) =
          CollisionDetector.best_from s o dir c rest := by
        simp only [CollisionDetector.best_from, hcd]
      rw [hb]
    | some t0 =>
      rw [Option.elim_some]
      by_cases h0 : t0 < c
      · rw [if_pos (show t0 < (h, c).2 from h0), ih]
        have hb : CollisionDetector.best_from s o dir c (obj :: rest) =
            match CollisionDetector.best_from s o dir t0 rest with
            | some r => some r
            | none => some (obj, t0) := by
          simp only [CollisionDetector.best_from, hcd, if_pos h0]
        rw [hb]
        cases hbr : CollisionDetector.best_from s o dir t0 rest with
        | some r => obtain ⟨w, t⟩ := r; rfl
        | none => rfl
      · rw [if_neg (show ¬ t0 < (h, c).2 from h0), ih]
        have hb : CollisionDetector.best_from s o dir c (obj :: rest) =
            CollisionDetector.best_from s o dir c rest := by
          simp only [CollisionDetector.best_from, hcd, if_neg h0]
        rw [hb]

theorem cand_dist_sphere_ahead (s : ℚ → ℚ) (o dir : Vec3) (r dist : ℚ)
    (hr : 0 < r) (hd : 0 ≤ dist) (hdir : Vec3.normSq dir = 1)
    (hs : s (r * r) = r) :
    CollisionDetector.cand_dist s o dir (.sphere (o + dist • dir) r) =
      some (dist - r) := by
  have h1 : dir.x * dir.x + dir.y * dir.y + dir.z * dir.z = 1 := by
    simpa [Vec3.normSq, Vec3.dot] using hdir
  have hproj : Vec3.dot ((o + dist • dir) - o) dir = dist := by
    simp only [Vec3.dot, Vec3.add_def, Vec3.sub_def, Vec3.smul_def]
    linear_combination dist * h1
  simp only [CollisionDetector.cand_dist]
  rw [hproj, if_neg (not_lt.mpr hd)]
  have hcp : Vec3.normSq ((o + dist • dir) - (o + dist • dir)) = 0 := by
    simp [Vec3.normSq, Vec3.dot, Vec3.sub_def]
  rw [hcp, if_neg (by nlinarith : ¬ (0 : ℚ) > r * r), sub_zero, hs]

set_option maxHeartbeats 1000000 in
/-- C5, amended: `ray_cast` performs a strict running-minimum scan starting at
`max_distance`.  (a) It reports no hit exactly when no candidate entry
distance is strictly below `max_distance` — in particular an intersection at
exactly `max_distance` is rejected, although it lies in [0, maxDistance].
(b) A reported hit carries the least candidate entry distance of the whole
list (candidates: spheres whose center projects nonnegatively onto the ray,
with the chord-formula entry distance, which may be ≤ 0 when the origin is
inside; boxes additionally need a strictly positive slab distance), the
winner's distance is strictly below `max_distance`, and on exact ties the
first object scanned wins: every earlier object's candidate distance is
strictly larger.  (c) Cast at a single sphere of radius r centered dist ahead
of the origin along a unit direction, it hits at distance dist − r exactly
when dist − r < max_distance, and reports no hit otherwise (also when
dist − r = max_distance). -/
theorem C5_ray_cast_amended (s : ℚ → ℚ) (ray_origin ray_direction : Vec3)
    (max_distance : ℚ) (objects : List CollisionDetector.RayObj) :
    ((CollisionDetector.ray_cast s ray_origin ray_direction max_distance
        objects).1 = false ↔
      ∀ obj ∈ objects, ∀ t,
        CollisionDetector.cand_dist s ray_origin ray_direction obj = some t →
          ¬ t < max_distance) ∧
    (∀ info, (CollisionDetector.ray_cast s ray_origin ray_direction
        max_distance objects).2 = some info →
      info.distance < max_distance ∧
      CollisionDetector.cand_dist s ray_origin ray_direction info.object =
        some info.distance ∧
      (∀ obj ∈ objects, ∀ t,
        CollisionDetector.cand_dist s ray_origin ray_direction obj = some t →
          info.distance ≤ t) ∧
      ∃ pre post, objects = pre ++ info.object :: post ∧
        ∀ obj ∈ pre, ∀ t,
          CollisionDetector.cand_dist s ray_origin ray_direction obj = some t →
            info.distance < t) ∧
    (∀ r dist : ℚ, 0 < r → 0 ≤ dist → Vec3.normSq ray_direction = 1 →
      s (r * r) = r →
      (((CollisionDetector.ray_cast s ray_origin ray_direction max_distance
          [.sphere (ray_origin + dist • ray_direction) r]).1 = true ↔
        dist - r < max_distance) ∧
      ∀ info, (CollisionDetector.ray_cast s ray_origin ray_direction
          max_distance [.sphere (ray_origin + dist • ray_direction) r]).2 =
          some info →
        info.distance = dist - r)) := by
  have hfold := ray_cast_foldl_eq s ray_origin ray_direction objects none
    max_distance
  refine ⟨?_, ?_, ?_⟩
  · rcases hbf : CollisionDetector.best_from s ray_origin ray_direction
        max_distance objects with _ | ⟨w, t⟩
    · have h1 : (CollisionDetector.ray_cast s ray_origin ray_direction
          max_distance objects).1 = false := by
        simp only [CollisionDetector.ray_cast]
        rw [hfold, hbf, Option.elim_none]
        rfl
      rw [h1]
      simp only [eq_self_iff_true, true_iff]
      exact (best_from_none_iff s ray_origin ray_direction objects
        max_distance).mp hbf
    · have h1 : (CollisionDetector.ray_cast s ray_origin ray_direction
          max_distance objects).1 = true := by
        simp only [CollisionDetector.ray_cast]
        rw [hfold, hbf, Option.elim_some]
        rfl
      obtain ⟨ht, hcw, hmin, pre, post, heq, hpre⟩ :=
        best_from_some s ray_origin ray_direction objects max_distance t w hbf
      rw [h1]
      constructor
      · intro hcontra
        exact absurd hcontra (by simp)
      · intro hall
        exact absurd ht (hall w
          (by rw [heq]; exact List.mem_append_right _ (List.mem_cons_self _ _))
          t hcw)
  · intro info hinfo
    rcases hbf : CollisionDetector.best_from s ray_origin ray_direction
        max_distance objects with _ | ⟨w, t⟩
    · have h2 : (CollisionDetector.ray_cast s ray_origin ray_direction
          max_distance objects).2 = none := by
        simp only [CollisionDetector.ray_cast]
        rw [hfold, hbf, Option.elim_none]
      rw [h2] at hinfo
      exact absurd hinfo (by simp)
    · have h2 : (CollisionDetector.ray_cast s ray_origin ray_direction
          max_distance objects).2 =
          some (CollisionDetector.mk_hit s ray_origin ray_direction w t) := by
        simp only [CollisionDetector.ray_cast]
        rw [hfold, hbf, Option.elim_some]
      rw [h2] at hinfo
      injection hinfo with hinfo
      subst hinfo
      obtain ⟨ht, hcw, hmin, pre, post, heq, hpre⟩ :=
        best_from_some s ray_origin ray_direction objects max_distance t w hbf
      rw [mk_hit_object, mk_hit_distance]
      exact ⟨ht, hcw, hmin, pre, post, heq, hpre⟩
  · intro r dist hr hd hdir hs
    have hcd := cand_dist_sphere_ahead s ray_origin ray_direction r dist hr hd
      hdir hs
    have hfold1 := ray_cast_foldl_eq s ray_origin ray_direction
      [.sphere (ray_origin + dist • ray_direction) r] none max_distance
    have hbf : CollisionDetector.best_from s ray_origin ray_direction
        max_distance [.sphere (ray_origin + dist • ray_direction) r] =
        if dist - r < max_distance then
          some (.sphere (ray_origin + dist • ray_direction) r, dist - r)
        else none := by
      simp only [CollisionDetector.best_from, hcd]
    by_cases h0 : dist - r < max_distance
    · rw [if_pos h0] at hbf
      have h1 : CollisionDetector.ray_cast s ray_origin ray_direction
          max_distance [.sphere (ray_origin + dist • ray_direction) r] =
          (true, some (CollisionDetector.mk_hit s ray_origin ray_direction
            (.sphere (ray_origin + dist • ray_direction) r) (dist - r))) := by
        simp only [CollisionDetector.ray_cast]
        rw [hfold1, hbf, Option.elim_some]
        rfl
      constructor
      · rw [h1]
        simp [h0]
      · intro info hinfo
        rw [h1] at hinfo
        injection hinfo with hinfo
        subst hinfo
        rw [mk_hit_distance]
    · rw [if_neg h0] at hbf
      have h1 : CollisionDetector.ray_cast s ray_origin ray_direction
          max_distance [.sphere (ray_origin + dist • ray_direction) r] =
          (false, none) := by
        simp only [CollisionDetector.ray_cast]
        rw [hfold1, hbf, Option.elim_none]
        rfl
      constructor
      · rw [h1]
        simp [h0]
      · intro info hinfo
        rw [h1] at hinfo
        exact absurd hinfo (by simp)

/-- C5, witness: the amended theorem's single-sphere clause at a sphere of
radius 1 centered 5 ahead of the origin with max distance 10: a hit is
reported. -/
theorem C5_ray_cast_amended_witness :
    (CollisionDetector.ray_cast (fun q => if q = 1 then 1 else 0) ⟨0, 0, 0⟩
        ⟨0, 0, 1⟩ 10
        [.sphere ((⟨0, 0, 0⟩ : Vec3) + (5 : ℚ) • ⟨0, 0, 1⟩) 1]).1 = true := by
  have h := ((C5_ray_cast_amended (fun q => if q = 1 then 1 else 0) ⟨0, 0, 0⟩
      ⟨0, 0, 1⟩ 10 []).2.2 1 5 (by norm_num) (by norm_num)
      (by norm_num [Vec3.normSq, Vec3.dot]) (by norm_num)).1
  exact h.mpr (by norm_num)

/-- C5, counterexample: a single sphere of radius 1 centered at (0,0,5),
ray from the origin along +z with maxDistance 4.  The entry distance is
exactly 4 = 5 − 1, which lies within [0, 4] (last conjuncts), yet `ray_cast`
returns no hit (first conjunct): the acceptance test is strictly
`hit_distance < closest_distance` with the running distance initialized to
`max_distance`, so a hit exactly at maxDistance is rejected, refuting the
claim's closed interval [0, maxDistance]. -/
theorem C5_counterexample :
    CollisionDetector.ray_cast (fun q => if q = 1 then 1 else 0) ⟨0, 0, 0⟩
        ⟨0, 0, 1⟩ 4 [.sphere ⟨0, 0, 5⟩ 1] = (false, none) ∧
      CollisionDetector.cand_dist (fun q => if q = 1 then 1 else 0) ⟨0, 0, 0⟩
        ⟨0, 0, 1⟩ (.sphere ⟨0, 0, 5⟩ 1) = some 4 ∧
      ((0 : ℚ) ≤ 4 ∧ (4 : ℚ) ≤ 4) := by
  refine ⟨?_, ?_, by norm_num⟩
  · norm_num [CollisionDetector.ray_cast, CollisionDetector.ray_cast_step,
      Vec3.normSq, Vec3.dot, Vec3.add_def, Vec3.sub_def, Vec3.smul_def]
  · norm_num [CollisionDetector.cand_dist, Vec3.normSq, Vec3.dot,
      Vec3.add_def, Vec3.sub_def, Vec3.smul_def]
